import Mathlib

/-!
# Vena-AI decision core

A shallow embedding of the decision functions of `src/js/app.js`
(`roundTo5`, `calculateWaveTarget`, `generateHeavySuggestion`, the history
filter and the two branches of `calculateAndSave`) and of the gates of
`src/js/logic_gates.js`, together with the properties stated about them.

Number model: JavaScript numbers are embedded as exact rationals, so the
literals `0.85`, `0.90`, `0.92` are the exact decimal fractions and `NaN` and
the infinities are not represented.  In a stored session a numeric field that
holds `null` is `none`; the commit path writes every such field, as a number or
as `null`.  A stored session whose key is missing altogether is not
represented: where the two differ (`null <= 8` is true, `undefined <= 8` is
false) the embedding follows `null`.
-/

namespace Vena

/-! ## JavaScript value helpers -/

/-- Truthiness of a number-or-null value: `null`, and `0` are falsy. -/
def truthy : Option ℚ → Bool
  | none => false
  | some x => decide (x ≠ 0)

/-- The numeric value of a number-or-null operand (`null` converts to `0`). -/
def toNumber : Option ℚ → ℚ
  | none => 0
  | some x => x

/-- The expression `v || d` for a number-or-null `v` and a number `d`. -/
def orDefault (v : Option ℚ) (d : ℚ) : ℚ :=
  match v with
  | some x => if x ≠ 0 then x else d
  | none => d

/-- The function `Math.round`: nearest integer, ties toward `+∞`. -/
def mathRound (x : ℚ) : ℤ := ⌊x + 1 / 2⌋

/-- Source `roundTo5(x) { return Math.round(x / 5) * 5; }`. -/
def roundTo5 (x : ℚ) : ℚ := (mathRound (x / 5) : ℚ) * 5

/-- Substring test on character lists, the core of `String.prototype.includes`. -/
def includesChars (sub : List Char) : List Char → Bool
  | [] => sub.isEmpty
  | c :: cs => sub.isPrefixOf (c :: cs) || includesChars sub cs

/-- The call `s.includes(sub)`. -/
def includes (s sub : String) : Bool := includesChars sub.toList s.toList

/-! ## Data model -/

/-- The value of `state.currentLift`: `'squat'` or `'bench'`. -/
inductive Lift where
  | squat
  | bench
  deriving DecidableEq, Repr

/-- The string held by `state.currentLift`. -/
def Lift.key : Lift → String
  | .squat => "squat"
  | .bench => "bench"

/-- The `metrics` object of a stored session. -/
structure Metrics where
  sleep : ℤ
  stress : ℤ
  deriving DecidableEq, Repr

/-- The `logicFlags` object of a stored session. -/
structure LogicFlags where
  sandbagging : Bool
  fatigue : Bool
  deriving DecidableEq, Repr

/-- The `performance` object that the logic gates read from a session.  A
field that is left out is `none`; it reads as `undefined`, so every comparison
with it is false. -/
structure Performance where
  topSingle : Option ℚ := none
  axialLoad : Option ℚ := none
  topRPE : Option ℚ := none
  deriving DecidableEq, Repr

/-- One stored session, with the fields written by `calculateAndSave`.
`date` is the time value of the stored date string.  `performance` is the
object `LogicGates.checkFatigue` reads from a history record; the commit path
writes none. -/
structure Entry where
  id : String
  type : Option String
  date : ℤ
  prevVol : Option ℚ
  heavySingle : Option ℚ
  heavyQuality : String
  heavyRpe : Option ℚ
  overshoot : String
  backdownFail : String
  volTarget : Option ℚ
  pivot : Bool
  volActual : Option ℚ
  volFail : String
  volRpe : Option ℚ
  volReps : Option ℚ
  metrics : Metrics
  logicFlags : LogicFlags
  performance : Option Performance := none
  deriving DecidableEq, Repr

/-- The session object a caller hands to a logic gate.  `id` is `none` when
the object literal has no `id`. -/
structure Session where
  type : String
  id : Option String := none
  performance : Option Performance := none
  deriving DecidableEq, Repr

/-- The exception raised by reading a property of `undefined`. -/
inductive JsError where
  | typeError
  deriving DecidableEq, Repr

/-- The object returned by a logic gate; `{ triggered: false }` has neither
message nor action. -/
structure GateResult where
  triggered : Bool
  message : Option String := none
  action : Option String := none
  deriving DecidableEq, Repr

/-- The `topSet` argument of `calculateAxialLoad`. -/
structure TopSet where
  weight : ℚ
  reps : ℚ
  deriving DecidableEq, Repr

/-- One element of the `backdownSets` argument of `calculateAxialLoad`. -/
structure BackdownSet where
  weight : ℚ
  reps : ℚ
  sets : ℚ
  deriving DecidableEq, Repr

/-- The values `calculateAndSave` reads from the form in heavy mode, after
`parseFloat` and `parseInt`, with the generated `uuid`. -/
structure HeavyInputs where
  uuid : String
  date : ℤ
  prevVol : ℚ
  heavySingle : ℚ
  quality : String
  rpe : ℚ
  overshoot : String
  backdownFail : String
  sleep : ℤ
  stress : ℤ
  deriving DecidableEq, Repr

/-- The object returned by `calculateWaveTarget`. -/
structure WaveTarget where
  weight : ℚ
  reps : ℚ
  note : String
  isPause : Bool
  deriving DecidableEq, Repr

/-- The template string of a suggestion, with its numeric interpolations kept
as numbers: `plain r t` is `r ++ " Try " ++ t` and `pivoted r b p` is
`r ++ " Base " ++ b ++ ". Pivot (-15%): Try " ++ p`. -/
inductive SuggestionText where
  | plain (baseReason : String) (baseTarget : ℚ)
  | pivoted (baseReason : String) (baseTarget : ℚ) (pivotTarget : ℚ)
  deriving DecidableEq, Repr

/-- The object returned by `generateHeavySuggestion`. -/
structure Suggestion where
  target : ℚ
  text : SuggestionText
  deriving DecidableEq, Repr

/-! ## Wave target calculator -/

/-- The loop test `history[i].volActual && !history[i].pivot`. -/
def isRealVol (e : Entry) : Bool := truthy e.volActual && !e.pivot

/-- The backward scan of `calculateWaveTarget` for `lastRealVol`. -/
def findLastRealVol (history : List Entry) : Option Entry :=
  history.reverse.find? isRealVol

/-- The lift default `(state.currentLift === 'squat') ? 365 : 225`. -/
def defaultVol : Lift → ℚ
  | .squat => 365
  | .bench => 225

/-- Source `App.calculateWaveTarget(history, pivot)`, with `state.currentLift`
passed explicitly. -/
def calculateWaveTarget (currentLift : Lift) (history : List Entry) (pivot : Bool) :
    WaveTarget :=
  let lastRealVol := findLastRealVol history
  if pivot then
    let refWeight :=
      match lastRealVol with
      | some e => toNumber e.volActual
      | none => defaultVol currentLift
    let targetWeight := roundTo5 (refWeight * 0.85)
    { weight := targetWeight, reps := 3, note := "Pivot: Light Technical Work",
      isPause := true }
  else
    match lastRealVol with
    | none =>
      { weight := defaultVol currentLift, reps := 4, note := "Wave Start", isPause := false }
    | some e =>
      let success := e.volFail == "no"
      let prevReps := orDefault e.volReps 4
      let prevWeight := toNumber e.volActual
      if success then
        if prevReps = 4 then
          { weight := prevWeight, reps := 5, note := "Step Up: Add Volume (3x5)",
            isPause := false }
        else if prevReps = 5 then
          { weight := prevWeight, reps := 6, note := "Step Up: Peak Volume (3x6)",
            isPause := false }
        else if prevReps ≥ 6 then
          { weight := prevWeight + 5, reps := 4,
            note := "Wave Complete! +5lbs, Reset to 3x4", isPause := false }
        else
          { weight := defaultVol currentLift, reps := 4, note := "Wave Start",
            isPause := false }
      else
        { weight := prevWeight, reps := prevReps,
          note := "Missed Reps. Retry same weight/reps.", isPause := false }

/-! ## Heavy-day suggestion generator -/

/-- The base-target rule chain of `generateHeavySuggestion` for a last record
whose `heavySingle` is the truthy number `hs`: the pair
`(baseTarget, baseReason)`.  A `heavyRpe` of `none` is `null`, which compares
as `0` in `heavyRpe <= 8`; every property below that reaches this comparison
assumes a recorded RPE. -/
def baseRule (last : Entry) (hs : ℚ) : ℚ × String :=
  if last.backdownFail == "yes" then
    (roundTo5 (hs * 0.90), "Backdown Fail.")
  else if last.overshoot == "yes" || (truthy last.heavyRpe && decide (toNumber last.heavyRpe ≥ 9.5)) then
    (roundTo5 (hs * 0.92), "Overshoot Correction.")
  else if truthy last.heavyRpe && decide (toNumber last.heavyRpe ≥ 9) then
    (hs, "Hold RPE 8.")
  else if last.heavyQuality == "good" && decide (toNumber last.heavyRpe ≤ 8) then
    (hs + 5, "Clean RPE 8.")
  else
    (hs, "Maintenance.")

/-- Source `App.generateHeavySuggestion(history, isPivot)`; `none` is the
`null` result. -/
def generateHeavySuggestion (history : List Entry) (isPivot : Bool) : Option Suggestion :=
  match history.getLast? with
  | none => none
  | some last =>
    if truthy last.heavySingle then
      let hs := toNumber last.heavySingle
      let baseTarget := (baseRule last hs).1
      let baseReason := (baseRule last hs).2
      if isPivot then
        let pivotTarget := roundTo5 (baseTarget * 0.85)
        some { target := pivotTarget, text := .pivoted baseReason baseTarget pivotTarget }
      else
        some { target := baseTarget, text := .plain baseReason baseTarget }
    else none

/-! ## History filter and the volume branch of the commit -/

/-- The predicate of the second filter of `getFilteredHistory`:
`h.type ? h.type.includes(currentLift) : true` (the first filter keeps
everything). -/
def inLift (currentLift : Lift) (e : Entry) : Bool :=
  match e.type with
  | none => true
  | some t => if t = "" then true else includes t currentLift.key

/-- Source `App.getFilteredHistory()`, on the user's stored history. -/
def getFilteredHistory (currentLift : Lift) (allHistory : List Entry) : List Entry :=
  (allHistory.filter fun _ => true).filter (inLift currentLift)

/-- The test `fullHistory[i].type && fullHistory[i].type.includes(currentLift)`
of the target search in the volume branch. -/
def namesLift (currentLift : Lift) (e : Entry) : Bool :=
  match e.type with
  | none => false
  | some t => if t = "" then false else includes t currentLift.key

/-- The largest index whose element satisfies `p`, as found by a loop running
from `length - 1` down to `0`; `none` is the index `-1`. -/
def lastIndexWhere {α : Type} (p : α → Bool) : List α → Option ℕ
  | [] => none
  | x :: xs =>
    match lastIndexWhere p xs with
    | some i => some (i + 1)
    | none => if p x then some 0 else none

/-- The volume branch of `App.calculateAndSave()`: the stored history after the
commit, or `none` when the branch alerts and returns without writing.
`volActualIn` and `volRpeIn` are the parsed input fields and `volFailIn` the
value of the `volFail` selector. -/
def calculateAndSaveVolume (currentLift : Lift) (pivotActive : Bool)
    (volActualIn volRpeIn : ℚ) (volFailIn : String) (fullHistory : List Entry) :
    Option (List Entry) :=
  let h := getFilteredHistory currentLift fullHistory
  if h.length = 0 then none
  else
    match lastIndexWhere (namesLift currentLift) fullHistory with
    | none => none
    | some targetIndex =>
      match fullHistory.get? targetIndex with
      | none => none
      | some last =>
        let pivot := last.pivot || pivotActive
        let calcResult := calculateWaveTarget currentLift h pivot
        some (fullHistory.set targetIndex
          { last with
            volActual := some volActualIn
            volRpe := some volRpeIn
            volFail := volFailIn
            volReps := some calcResult.reps })

/-! ## Logic gates (`src/js/logic_gates.js`) -/

/-- The comparison `a < b` of two numbers that may be `undefined`. -/
def jsLt (a b : Option ℚ) : Bool :=
  match a, b with
  | some x, some y => decide (x < y)
  | _, _ => false

/-- The comparison `a > b` of two numbers that may be `undefined`. -/
def jsGt (a b : Option ℚ) : Bool := jsLt b a

/-- Reading `.performance` for a following property access: a missing object
makes that access raise a `TypeError`. -/
def readPerformance : Option Performance → Except JsError Performance
  | some p => .ok p
  | none => .error .typeError

/-- The value of `x.performance.topSingle` when it is a number. -/
def topSingleOf (performance : Option Performance) : Option ℚ :=
  performance.bind fun p => p.topSingle

/-- Source `LogicGates.checkSandbagging(topRPE, volumeSuccess)`. -/
def checkSandbagging (topRPE : ℚ) (volumeSuccess : Bool) : GateResult :=
  if topRPE ≤ 7.5 ∧ volumeSuccess = false then
    { triggered := true,
      message := some "Focus Mismatch Detected: Easy top single but failed back-off.",
      action := some "increase_volume_intensity" }
  else { triggered := false }

/-- The list `prevSessions` of `checkFatigue`: the history records of the same
type and another id, sorted by `new Date(b.date) - new Date(a.date)`, that is
by descending date.  `Array.prototype.sort` is stable, and so is this sort. -/
def prevSessionsOf (currentSession : Session) (userHistory : List Entry) : List Entry :=
  (userHistory.filter fun s =>
      decide (s.type = some currentSession.type) && decide (some s.id ≠ currentSession.id)
    ).insertionSort fun a b => b.date ≤ a.date

/-- Source `LogicGates.checkFatigue(currentSession, userHistory)`. -/
def checkFatigue (currentSession : Session) (userHistory : List Entry) :
    Except JsError GateResult :=
  if !includes currentSession.type "heavy" then .ok { triggered := false }
  else
    let prevSessions := prevSessionsOf currentSession userHistory
    if prevSessions.length < 2 then .ok { triggered := false }
    else
      match prevSessions with
      | last1 :: last2 :: _ => do
        let currentTop := (← readPerformance currentSession.performance).topSingle
        let last1Top := (← readPerformance last1.performance).topSingle
        let last2Top := (← readPerformance last2.performance).topSingle
        if jsLt currentTop last1Top && jsLt last1Top last2Top then
          pure { triggered := true,
                 message := some
                   "Fatigue accumulation detected. Performance regression over 3 sessions.",
                 action := some "activate_pivot" }
        else pure { triggered := false }
      | _ => .ok { triggered := false }

/-- Source `LogicGates.checkAxialLoad(sessionData, maxCapacity)`. -/
def checkAxialLoad (sessionData : Session) (maxCapacity : ℚ) : Except JsError GateResult :=
  if sessionData.type ≠ "heavy_squat" then .ok { triggered := false }
  else do
    let load := (← readPerformance sessionData.performance).axialLoad
    let rpe := (← readPerformance sessionData.performance).topRPE
    if jsGt load (some maxCapacity) || jsGt rpe (some 9) then
      pure { triggered := true,
             message := some "High Systemic Fatigue. Saturday session should be adjusted.",
             action := some "reduce_saturday_load" }
    else pure { triggered := false }

/-- Source `LogicGates.calculateAxialLoad(topSet, backdownSets)`. -/
def calculateAxialLoad (topSet : TopSet) (backdownSets : List BackdownSet) : ℚ :=
  backdownSets.foldl (fun load set => load + set.weight * set.reps * set.sets)
    (topSet.weight * topSet.reps)

/-! ## The heavy branch of the commit -/

/-- The back-off weight `bdWeight` of the heavy branch of `calculateAndSave`. -/
def commitBackdownWeight (heavySingle : ℚ) (pivotActive : Bool) : ℚ :=
  let percentage : ℚ := if pivotActive then 0.75 else 0.82
  roundTo5 (heavySingle * percentage)

/-- The estimate `currentAxialLoad` of the heavy branch of `calculateAndSave`. -/
def commitAxialLoad (heavySingle : ℚ) (pivotActive : Bool) : ℚ :=
  heavySingle * 1 + commitBackdownWeight heavySingle pivotActive * 3 * 3

/-- The type tag of a heavy commit, the template string with `currentMode`
equal to `heavy` followed by an underscore and the lift. -/
def heavyType (currentLift : Lift) : String := "heavy_" ++ currentLift.key

/-- The heavy branch of `App.calculateAndSave()`: the stored history after the
commit.  An error is the exception that the surrounding `try` catches, after
which nothing has been stored. -/
def calculateAndSaveHeavy (currentLift : Lift) (pivotActive : Bool) (inp : HeavyInputs)
    (fullHistory : List Entry) : Except JsError (List Entry) := do
  let h := getFilteredHistory currentLift fullHistory
  let nextVol := calculateWaveTarget currentLift h pivotActive
  let sandbagCheck := checkSandbagging inp.rpe (inp.backdownFail == "no")
  let fatigueCheck ← checkFatigue
    { type := heavyType currentLift, id := some "temp",
      performance := some { topSingle := some inp.heavySingle } } h
  let _axialCheck ←
    if currentLift = Lift.squat then
      checkAxialLoad
        { type := "heavy_squat",
          performance := some
            { axialLoad := some (commitAxialLoad inp.heavySingle pivotActive),
              topRPE := some inp.rpe } }
        9000
    else pure { triggered := false }
  let entry : Entry :=
    { id := inp.uuid, type := some (heavyType currentLift), date := inp.date,
      prevVol := some inp.prevVol, heavySingle := some inp.heavySingle,
      heavyQuality := inp.quality, heavyRpe := some inp.rpe, overshoot := inp.overshoot,
      backdownFail := inp.backdownFail, volTarget := some nextVol.weight,
      pivot := pivotActive, volActual := none, volFail := "no", volRpe := none,
      volReps := none, metrics := { sleep := inp.sleep, stress := inp.stress },
      logicFlags :=
        { sandbagging := sandbagCheck.triggered, fatigue := fatigueCheck.triggered } }
  pure (fullHistory ++ [entry])

/-! ## System autopilot -/

/-- The three branches of `runSystemAutopilot`, named as its comments name
them: `red` shows the protocol banner (lock), `yellow` the caution status and
`green` the nominal status. -/
inductive SystemStatus where
  | red
  | yellow
  | green
  deriving DecidableEq, Repr

/-- The pivot state that `runSystemAutopilot` reads and writes: the flag
`state.pivotActive` and the `checked` and `disabled` properties of the
`pivotMode` switch. -/
structure PivotControl where
  pivotActive : Bool
  switchChecked : Bool
  switchDisabled : Bool
  deriving DecidableEq, Repr

/-- The body of the `forEach` of `runSystemAutopilot`, on the pair
`(badCount, failCount)`. -/
def autopilotStep (counts : ℕ × ℕ) (e : Entry) : ℕ × ℕ :=
  let badCount :=
    if e.heavyQuality == "bad" || e.overshoot == "yes" || e.backdownFail == "yes" then
      counts.1 + 1
    else counts.1
  let failCount := if e.volFail == "yes" then counts.2 + 1 else counts.2
  (badCount, failCount)

/-- The expression `h.slice(-5)`. -/
def sliceLast5 (h : List Entry) : List Entry := h.drop (h.length - 5)

/-- Source `App.runSystemAutopilot()`, on the user's stored history and the
pivot state: the branch taken and the pivot state afterwards.  In the red
branch `togglePivot()` copies the switch, just checked, into `pivotActive`. -/
def runSystemAutopilot (currentLift : Lift) (allHistory : List Entry) (st : PivotControl) :
    SystemStatus × PivotControl :=
  let h := getFilteredHistory currentLift allHistory
  let recent := sliceLast5 h
  let counts := recent.foldl autopilotStep (0, 0)
  let badCount := counts.1
  let failCount := counts.2
  if badCount ≥ 2 ∨ failCount ≥ 2 then
    (.red, { pivotActive := true, switchChecked := true, switchDisabled := true })
  else if badCount > 0 ∨ failCount > 0 then
    (.yellow, { st with switchDisabled := false })
  else
    (.green, { st with switchDisabled := false })

/-- The list `recent` of `runSystemAutopilot`. -/
def recentSessions (currentLift : Lift) (allHistory : List Entry) : List Entry :=
  sliceLast5 (getFilteredHistory currentLift allHistory)

/-- The test `heavyQuality === 'bad' || overshoot === 'yes' || backdownFail === 'yes'`
as a predicate on a record. -/
def isBadSession (e : Entry) : Bool :=
  e.heavyQuality == "bad" || e.overshoot == "yes" || e.backdownFail == "yes"

/-- The test `volFail === 'yes'` as a predicate on a record. -/
def isFailedVolume (e : Entry) : Bool := e.volFail == "yes"

/-! ## The copy of the wave logic in `src/test_wave_logic.js` -/

/-- Source `App.calculateWaveTarget(history, pivot)` of `src/test_wave_logic.js`,
with `state.currentLift` passed explicitly (the test file fixes it to
`'squat'`). -/
def testCalculateWaveTarget (currentLift : Lift) (history : List Entry) (pivot : Bool) :
    WaveTarget :=
  let lastRealVol := findLastRealVol history
  if pivot then
    let refWeight :=
      match lastRealVol with
      | some e => toNumber e.volActual
      | none => defaultVol currentLift
    let targetWeight := roundTo5 (refWeight * 0.85)
    { weight := targetWeight, reps := 3, note := "PIVOT: Speed/Tech work only. Do not grind.",
      isPause := true }
  else
    let startWeight : ℚ := if currentLift = Lift.squat then 315 else 225
    let targetReps : ℚ := 4
    let suffix := " [If Set 1 is > RPE 8, drop 5%]"
    match lastRealVol with
    | none =>
      { weight := startWeight, reps := targetReps, note := "Establish Baseline" ++ suffix,
        isPause := false }
    | some e =>
      let lastWeight := toNumber e.volActual
      let lastRpe := orDefault e.volRpe 7.5
      let success := e.volFail == "no"
      if !success then
        { weight := roundTo5 (lastWeight - 15), reps := targetReps,
          note := "REGRESSION: Missed reps last time. Rebuild momentum." ++ suffix,
          isPause := false }
      else if lastRpe ≤ 6 then
        { weight := lastWeight + 10, reps := targetReps,
          note := "EASY: +10lbs. (Last was RPE ≤ 6)" ++ suffix, isPause := false }
      else if lastRpe ≤ 7.5 then
        { weight := lastWeight + 5, reps := targetReps,
          note := "PROGRESS: +5lbs. (Last was RPE 6-7.5)" ++ suffix, isPause := false }
      else if lastRpe ≤ 8.5 then
        { weight := lastWeight, reps := targetReps,
          note := "CONSOLIDATE: Repeat weight. (Last was RPE 8+)" ++ suffix,
          isPause := false }
      else
        { weight := roundTo5 (lastWeight - 10), reps := targetReps,
          note := "DELOAD: Last session was RPE 9+. Drop weight." ++ suffix,
          isPause := false }

/-! ## Plate loading (`src/js/ui_renderer.js`) -/

/-- The string returned by `getPlateLoading`: `bar` is "Bar" and `plates r` is
`r.join(" + ")`, with the numbers kept as numbers. -/
inductive Loading where
  | bar
  | plates (result : List ℚ)
  deriving DecidableEq, Repr

/-- The inner loop `while (target >= p) { result.push(p); target -= p; }` for a
positive plate `p`: the pair `(target, result)` when the loop ends. -/
def drainPlate (p : ℚ) (hp : 0 < p) (target : ℚ) (result : List ℚ) : ℚ × List ℚ :=
  if hge : target ≥ p then
    have _ := hge
    drainPlate p hp (target - p) (result ++ [p])
  else (target, result)
termination_by (⌊target / p⌋).toNat
decreasing_by
  have h1 : (target - p) / p = target / p - 1 := by
    rw [sub_div, div_self (ne_of_gt hp)]
  have h2 : (1 : ℤ) ≤ ⌊target / p⌋ := by
    rw [Int.le_floor]
    rw [Int.cast_one, le_div_iff₀ hp, one_mul]
    exact hge
  rw [h1, Int.floor_sub_one]
  omega

/-- The loop `for (let p of plates)` over `[45, 35, 25, 10, 5, 2.5]`. -/
def loadPlates (target : ℚ) : ℚ × List ℚ :=
  let s45 := drainPlate 45 (by norm_num) target []
  let s35 := drainPlate 35 (by norm_num) s45.1 s45.2
  let s25 := drainPlate 25 (by norm_num) s35.1 s35.2
  let s10 := drainPlate 10 (by norm_num) s25.1 s25.2
  let s5 := drainPlate 5 (by norm_num) s10.1 s10.2
  drainPlate 2.5 (by norm_num) s5.1 s5.2

/-- Source `UI.getPlateLoading(weight)`. -/
def getPlateLoading (weight : ℚ) : Loading :=
  if weight = 0 ∨ weight < 45 then .bar
  else
    let target := (weight - 45) / 2
    let result := (loadPlates target).2
    if result.length ≠ 0 then .plates result else .bar

/-- The plate sizes of `getPlateLoading`. -/
def plateSizes : List ℚ := [45, 35, 25, 10, 5, 2.5]

/-- A weight that is an integer multiple of 5. -/
def IsMultipleOf5 (x : ℚ) : Prop := ∃ k : ℤ, x = 5 * k

/-- A rep count on the wave ladder or the pivot count: one of 3, 4, 5, 6. -/
def IsWaveReps (r : ℚ) : Prop := r = 3 ∨ r = 4 ∨ r = 5 ∨ r = 6

/-! ## Sample records -/

/-- A heavy squat record as the heavy branch writes it, before any volume
result is attached. -/
def sampleHeavy : Entry :=
  { id := "a", type := some "heavy_squat", date := 0, prevVol := some 365,
    heavySingle := some 500, heavyQuality := "good", heavyRpe := some 8,
    overshoot := "no", backdownFail := "no", volTarget := some 365, pivot := false,
    volActual := none, volFail := "no", volRpe := none, volReps := none,
    metrics := { sleep := 3, stress := 3 },
    logicFlags := { sandbagging := false, fatigue := false } }

/-- The record `sampleHeavy` with a volume result of `w` for `r` reps and
failure selector `f` attached. -/
def sampleVol (w r : ℚ) (f : String) : Entry :=
  { sampleHeavy with volActual := some w, volReps := some r, volFail := f }

/-- A stored squat history: a 315 × 5 success followed by a heavy record logged
with pivot off that has no volume result yet. -/
def sampleOpenHistory : List Entry :=
  [sampleVol 315 5 "no", { sampleHeavy with id := "b" }]

/-- The history `sampleOpenHistory` after a volume commit of 270 at RPE 7,
not failed, made with the live pivot flag on. -/
def sampleAfterLivePivot : List Entry :=
  [sampleVol 315 5 "no",
   { sampleHeavy with
     id := "b", volActual := some 270, volRpe := some 7, volFail := "no", volReps := some 3 }]

/-- The current session as the heavy branch hands it to `checkFatigue`, for a
squat top single `t`. -/
def sampleCurrent (t : ℚ) : Session :=
  { type := "heavy_squat", id := some "temp", performance := some { topSingle := some t } }

/-- A history record in the shape `checkFatigue` reads: a heavy squat session
with id `ident`, date `d` and `performance.topSingle = t`. -/
def samplePerf (ident : String) (d : ℤ) (t : ℚ) : Entry :=
  { sampleHeavy with id := ident, date := d, performance := some { topSingle := some t } }

/-- The form values of a heavy squat day with top single `single`, good quality
at RPE 8, no overshoot and no backdown failure. -/
def sampleInputs (u : String) (d : ℤ) (single : ℚ) : HeavyInputs :=
  { uuid := u, date := d, prevVol := 365, heavySingle := single, quality := "good",
    rpe := 8, overshoot := "no", backdownFail := "no", sleep := 3, stress := 3 }

/-- The record stored by a second heavy squat commit, a week after
`sampleHeavy`, with top single 495. -/
def sampleSecond : Entry :=
  { sampleHeavy with id := "b", date := 7, heavySingle := some 495 }

/-- The session the heavy branch hands to `checkAxialLoad`, with the given
estimated load and RPE. -/
def sampleAxial (load rpe : ℚ) : Session :=
  { type := "heavy_squat",
    performance := some { axialLoad := some load, topRPE := some rpe } }

/-- The form values of a heavy squat day with top single 500 at RPE 9.5. -/
def sampleHighRpeInputs : HeavyInputs := { sampleInputs "a" 0 500 with rpe := 9.5 }

/-- The record the heavy branch stores for `sampleHighRpeInputs` on an empty
history. -/
def sampleHighRpe : Entry := { sampleHeavy with heavyRpe := some 9.5 }

/-- The record `sampleVol 315 5 "no"` after a second volume commit of 320 at
RPE 8, not failed, made with pivot off. -/
def sampleOverwritten : Entry :=
  { sampleVol 315 5 "no" with
    volActual := some 320, volRpe := some 8, volFail := "no", volReps := some 6 }

/-- A bench record, as the heavy branch writes it. -/
def sampleBench : Entry := { sampleHeavy with id := "x", type := some "heavy_bench" }

/-- A last record with an overshoot next to good quality at RPE 8. -/
def sampleOvershoot : Entry := { sampleHeavy with overshoot := "yes" }

/-- A last record held at RPE 9.2. -/
def sampleHold : Entry := { sampleHeavy with heavyRpe := some 9.2 }

/-- A last record that fails its backdown while also overshooting at RPE 10 with
bad quality. -/
def sampleBackdownFail : Entry :=
  { sampleHeavy with
    backdownFail := "yes", overshoot := "yes", heavyRpe := some 10, heavyQuality := "bad" }

/-! ## Lemmas on the backward scan -/

theorem findLastRealVol_split (pre post : List Entry) (e : Entry)
    (hreal : isRealVol e = true) (hpost : ∀ x ∈ post, isRealVol x = false) :
    findLastRealVol (pre ++ e :: post) = some e := by
  have hnone : List.find? isRealVol post.reverse = none := by
    rw [List.find?_eq_none]
    intro x hx
    simp [hpost x (List.mem_reverse.mp hx)]
  simp [findLastRealVol, List.find?_append, hnone, List.find?_cons, hreal]

theorem findLastRealVol_eq_none (h : List Entry) (hnone : ∀ x ∈ h, isRealVol x = false) :
    findLastRealVol h = none := by
  unfold findLastRealVol
  rw [List.find?_eq_none]
  intro x hx
  simp [hnone x (List.mem_reverse.mp hx)]

theorem findLastRealVol_cases (h : List Entry) :
    (findLastRealVol h = none ∧ ∀ x ∈ h, isRealVol x = false) ∨
    ∃ pre e post, h = pre ++ e :: post ∧ isRealVol e = true ∧
      (∀ x ∈ post, isRealVol x = false) ∧ findLastRealVol h = some e := by
  cases hf : findLastRealVol h with
  | none =>
    left
    refine ⟨rfl, fun x hx => ?_⟩
    unfold findLastRealVol at hf
    rw [List.find?_eq_none] at hf
    simpa using hf x (List.mem_reverse.mpr hx)
  | some e =>
    right
    unfold findLastRealVol at hf
    obtain ⟨he, as, bs, hsplit, has⟩ := List.find?_eq_some.mp hf
    refine ⟨bs.reverse, e, as.reverse, ?_, he, ?_, rfl⟩
    · have := congrArg List.reverse hsplit
      simpa using this
    · intro x hx
      simpa using has x (List.mem_reverse.mp hx)

theorem findLastRealVol_filter_pivot (h : List Entry) :
    findLastRealVol (h.filter fun e => !e.pivot) = findLastRealVol h := by
  unfold findLastRealVol
  rw [← List.filter_reverse, List.find?_filter]
  congr 1
  funext a
  simp only [isRealVol]
  rcases Bool.eq_false_or_eq_true a.pivot with hp | hp <;> simp [hp]

/-! ## Wave target calculator: the standard path -/

/-- C1: when the most recent non-pivot record with a volume weight `w`
succeeded (`volFail = "no"`) at `r` reps, the non-pivot target is `(w, 5)` for
`r = 4`, `(w, 6)` for `r = 5` and `(w + 5, 4)` for `r ≥ 6`. -/
theorem wave_success_step (lift : Lift) (pre post : List Entry) (e : Entry) (w r : ℚ)
    (hreal : isRealVol e = true) (hpost : ∀ x ∈ post, isRealVol x = false)
    (hw : e.volActual = some w) (hr : e.volReps = some r) (hok : e.volFail = "no") :
    (r = 4 → calculateWaveTarget lift (pre ++ e :: post) false =
      { weight := w, reps := 5, note := "Step Up: Add Volume (3x5)", isPause := false }) ∧
    (r = 5 → calculateWaveTarget lift (pre ++ e :: post) false =
      { weight := w, reps := 6, note := "Step Up: Peak Volume (3x6)", isPause := false }) ∧
    (6 ≤ r → calculateWaveTarget lift (pre ++ e :: post) false =
      { weight := w + 5, reps := 4, note := "Wave Complete! +5lbs, Reset to 3x4",
        isPause := false }) := by
  have hfind := findLastRealVol_split pre post e hreal hpost
  refine ⟨?_, ?_, ?_⟩
  · intro h4
    subst h4
    simp [calculateWaveTarget, hfind, hok, hr, hw, orDefault, toNumber]
  · intro h5
    subst h5
    simp [calculateWaveTarget, hfind, hok, hr, hw, orDefault, toNumber]
  · intro h6
    have hne : r ≠ 0 := by intro h0; rw [h0] at h6; norm_num at h6
    have h4 : r ≠ 4 := by intro h0; rw [h0] at h6; norm_num at h6
    have h5 : r ≠ 5 := by intro h0; rw [h0] at h6; norm_num at h6
    simp [calculateWaveTarget, hfind, hok, hr, hw, orDefault, toNumber, hne, h4, h5, h6]

/-- C2: when the most recent non-pivot record with a volume weight `w` is
marked failed (`volFail = "yes"`), the non-pivot target repeats `w` and the
record's reps (`volReps || 4`, which is the recorded count whenever one is
recorded), with the retry note and `isPause = false`. -/
theorem wave_failure_repeats (lift : Lift) (pre post : List Entry) (e : Entry) (w : ℚ)
    (hreal : isRealVol e = true) (hpost : ∀ x ∈ post, isRealVol x = false)
    (hw : e.volActual = some w) (hfail : e.volFail = "yes") :
    calculateWaveTarget lift (pre ++ e :: post) false =
      { weight := w, reps := orDefault e.volReps 4,
        note := "Missed Reps. Retry same weight/reps.", isPause := false } ∧
    ∀ r : ℚ, e.volReps = some r → r ≠ 0 →
      calculateWaveTarget lift (pre ++ e :: post) false =
        { weight := w, reps := r, note := "Missed Reps. Retry same weight/reps.",
          isPause := false } := by
  have hfind := findLastRealVol_split pre post e hreal hpost
  have hmain : calculateWaveTarget lift (pre ++ e :: post) false =
      { weight := w, reps := orDefault e.volReps 4,
        note := "Missed Reps. Retry same weight/reps.", isPause := false } := by
    simp [calculateWaveTarget, hfind, hfail, hw, toNumber]
  refine ⟨hmain, fun r hr hne => ?_⟩
  rw [hmain]
  simp [hr, orDefault, hne]

/-- C3: when no record is a non-pivot record with a volume weight (in
particular for the empty history), the non-pivot target is the lift default
(365 squat, 225 bench) for 4 reps, note "Wave Start", `isPause = false`. -/
theorem wave_start_default (lift : Lift) (history : List Entry)
    (hnone : ∀ x ∈ history, isRealVol x = false) :
    calculateWaveTarget lift history false =
      { weight := if lift = Lift.squat then 365 else 225, reps := 4, note := "Wave Start",
        isPause := false } ∧
    calculateWaveTarget lift [] false =
      { weight := if lift = Lift.squat then 365 else 225, reps := 4, note := "Wave Start",
        isPause := false } := by
  have hfind := findLastRealVol_eq_none history hnone
  have hnil : findLastRealVol [] = none := rfl
  cases lift <;> simp [calculateWaveTarget, hfind, hnil, defaultVol]

/-! ## Wave target calculator: the pivot path -/

/-- C4: with the pivot flag set the target is `round5 (ref × 0.85)` for 3 reps,
paused, note "Pivot: Light Technical Work", where `ref` is the lift default
when there is no non-pivot record with a volume weight and that record's
weight otherwise; nothing else of the record enters the result. -/
theorem wave_pivot_target (lift : Lift) (history : List Entry) :
    ((∀ x ∈ history, isRealVol x = false) →
      calculateWaveTarget lift history true =
        { weight := roundTo5 ((if lift = Lift.squat then 365 else 225) * 0.85), reps := 3,
          note := "Pivot: Light Technical Work", isPause := true }) ∧
    (∀ (pre post : List Entry) (e : Entry) (w : ℚ), history = pre ++ e :: post →
      isRealVol e = true → (∀ x ∈ post, isRealVol x = false) → e.volActual = some w →
      calculateWaveTarget lift history true =
        { weight := roundTo5 (w * 0.85), reps := 3,
          note := "Pivot: Light Technical Work", isPause := true }) := by
  constructor
  · intro hnone
    have hfind := findLastRealVol_eq_none history hnone
    cases lift <;> simp [calculateWaveTarget, hfind, defaultVol]
  · intro pre post e w hsplit hreal hpost hw
    subst hsplit
    have hfind := findLastRealVol_split pre post e hreal hpost
    simp [calculateWaveTarget, hfind, hw, toNumber]

/-- C5: pivot isolation.  For either value of the pivot flag the target
computed from a history equals the target computed from the history with every
pivot record removed, and inserting any block of pivot records anywhere in a
history leaves the target unchanged. -/
theorem wave_pivot_isolation (lift : Lift) (history : List Entry) (pivot : Bool) :
    calculateWaveTarget lift history pivot =
      calculateWaveTarget lift (history.filter fun e => !e.pivot) pivot ∧
    ∀ pre ps post : List Entry, history = pre ++ post → (∀ x ∈ ps, x.pivot = true) →
      calculateWaveTarget lift (pre ++ ps ++ post) pivot =
        calculateWaveTarget lift history pivot := by
  have key : ∀ l : List Entry, calculateWaveTarget lift l pivot =
      calculateWaveTarget lift (l.filter fun e => !e.pivot) pivot := by
    intro l
    simp only [calculateWaveTarget, findLastRealVol_filter_pivot]
  refine ⟨key history, fun pre ps post hsplit hps => ?_⟩
  subst hsplit
  rw [key (pre ++ ps ++ post), key (pre ++ post)]
  have hnil : (ps.filter fun e => !e.pivot) = [] := by
    rw [List.filter_eq_nil_iff]
    intro x hx
    simp [hps x hx]
  simp [List.filter_append, hnil]

/-- Witness of `wave_success_step`: one record 315 × 6, succeeded, gives 320 × 4
(and 315 × 4 gives 315 × 5). -/
theorem wave_success_step_witness :
    calculateWaveTarget Lift.squat ([] ++ sampleVol 315 6 "no" :: []) false =
      { weight := 315 + 5, reps := 4, note := "Wave Complete! +5lbs, Reset to 3x4",
        isPause := false } ∧
    calculateWaveTarget Lift.squat ([] ++ sampleVol 315 4 "no" :: []) false =
      { weight := 315, reps := 5, note := "Step Up: Add Volume (3x5)", isPause := false } :=
  ⟨(wave_success_step Lift.squat [] [] (sampleVol 315 6 "no") 315 6 (by decide) (by simp)
      rfl rfl rfl).2.2 (by norm_num),
   (wave_success_step Lift.squat [] [] (sampleVol 315 4 "no") 315 4 (by decide) (by simp)
      rfl rfl rfl).1 rfl⟩

/-- Witness of `wave_failure_repeats`: one record 315 × 5, failed, gives 315 × 5. -/
theorem wave_failure_repeats_witness :
    calculateWaveTarget Lift.squat ([] ++ sampleVol 315 5 "yes" :: []) false =
      { weight := 315, reps := 5, note := "Missed Reps. Retry same weight/reps.",
        isPause := false } :=
  (wave_failure_repeats Lift.squat [] [] (sampleVol 315 5 "yes") 315 (by decide) (by simp)
    rfl rfl).2 5 rfl (by norm_num)

/-- Witness of `wave_start_default`: a history holding only a heavy record
without volume result gives the bench default. -/
theorem wave_start_default_witness :
    calculateWaveTarget Lift.bench [sampleHeavy] false =
      { weight := if Lift.bench = Lift.squat then 365 else 225, reps := 4,
        note := "Wave Start", isPause := false } :=
  (wave_start_default Lift.bench [sampleHeavy] (by decide)).1

/-- Witness of `wave_pivot_target`: after 315 × 5 (failed) the pivot target is
`roundTo5 (315 × 0.85)`, and on the empty squat history `roundTo5 (365 × 0.85)`. -/
theorem wave_pivot_target_witness :
    calculateWaveTarget Lift.squat [sampleVol 315 5 "yes"] true =
      { weight := roundTo5 (315 * 0.85), reps := 3,
        note := "Pivot: Light Technical Work", isPause := true } ∧
    calculateWaveTarget Lift.squat [] true =
      { weight := roundTo5 ((if Lift.squat = Lift.squat then 365 else 225) * 0.85),
        reps := 3, note := "Pivot: Light Technical Work", isPause := true } :=
  ⟨(wave_pivot_target Lift.squat [sampleVol 315 5 "yes"]).2 [] [] (sampleVol 315 5 "yes") 315
      rfl (by decide) (by simp) rfl,
   (wave_pivot_target Lift.squat []).1 (by simp)⟩

/-- Witness of `wave_pivot_isolation`: a pivot record carrying a volume result,
inserted after a 315 × 4 success, leaves the target unchanged. -/
theorem wave_pivot_isolation_witness :
    calculateWaveTarget Lift.squat
        ([sampleVol 315 4 "no"] ++ [{ sampleVol 270 3 "no" with pivot := true }] ++ []) false =
      calculateWaveTarget Lift.squat [sampleVol 315 4 "no"] false :=
  (wave_pivot_isolation Lift.squat [sampleVol 315 4 "no"] false).2
    [sampleVol 315 4 "no"] [{ sampleVol 270 3 "no" with pivot := true }] [] rfl (by simp)

/-! ## Volume commits and the wave state -/

theorem filter_set_of_false {α : Type} (q : α → Bool) (a b : α) (hb : q b = false) :
    ∀ (l : List α) (i : ℕ), l.get? i = some a → q a = false →
      (l.set i b).filter q = l.filter q := by
  intro l
  induction l with
  | nil => intro i hget _; simp at hget
  | cons x xs ih =>
    intro i hget ha
    cases i with
    | zero =>
      simp at hget
      subst hget
      simp [List.filter_cons, hb, ha]
    | succ j =>
      simp at hget
      have hget2 : xs.get? j = some a := by simpa using hget
      simp [List.filter_cons, ih j hget2 ha]

/-- A volume commit onto a record whose own `pivot` flag is set does not change
the non-pivot wave target. -/
theorem volume_commit_on_pivot_record (lift : Lift) (pivotActive : Bool) (w rpe : ℚ)
    (f : String) (full full2 : List Entry) (i : ℕ) (last : Entry)
    (hidx : lastIndexWhere (namesLift lift) full = some i) (hget : full.get? i = some last)
    (hpivot : last.pivot = true)
    (hcommit : calculateAndSaveVolume lift pivotActive w rpe f full = some full2) :
    calculateWaveTarget lift (getFilteredHistory lift full2) false =
      calculateWaveTarget lift (getFilteredHistory lift full) false := by
  unfold calculateAndSaveVolume at hcommit
  simp only [hidx, hget] at hcommit
  split at hcommit
  · exact absurd hcommit (by simp)
  · have hfull2 := (Option.some.inj hcommit).symm
    have hscan : findLastRealVol (getFilteredHistory lift full2) =
        findLastRealVol (getFilteredHistory lift full) := by
      rw [← findLastRealVol_filter_pivot (getFilteredHistory lift full2),
        ← findLastRealVol_filter_pivot (getFilteredHistory lift full)]
      simp only [getFilteredHistory, List.filter_filter]
      rw [hfull2]
      congr 1
      apply filter_set_of_false _ last _ _ full i hget
      · simp [hpivot]
      · simp [hpivot]
    simp only [calculateWaveTarget, hscan]

/-- C6 (evaluation at the failing input): with 315 × 5 succeeded and an open
heavy record logged with pivot off, the non-pivot target is 315 × 6; a volume
commit made while the live pivot flag is on writes 3 reps onto that non-pivot
record, after which the non-pivot target is the default 365 × 4 "Wave Start". -/
theorem live_pivot_commit_resets_wave :
    calculateWaveTarget Lift.squat (getFilteredHistory Lift.squat sampleOpenHistory) false =
      { weight := 315, reps := 6, note := "Step Up: Peak Volume (3x6)", isPause := false } ∧
    calculateAndSaveVolume Lift.squat true 270 7 "no" sampleOpenHistory =
      some sampleAfterLivePivot ∧
    calculateWaveTarget Lift.squat (getFilteredHistory Lift.squat sampleAfterLivePivot) false =
      { weight := 365, reps := 4, note := "Wave Start", isPause := false } := by
  refine ⟨?_, ?_, ?_⟩
  · norm_num [calculateWaveTarget, getFilteredHistory, sampleOpenHistory, inLift, includes,
      includesChars, Lift.key, findLastRealVol, isRealVol, truthy, toNumber, orDefault,
      sampleVol, sampleHeavy]
  · decide
  · norm_num [calculateWaveTarget, getFilteredHistory, sampleAfterLivePivot, inLift, includes,
      includesChars, Lift.key, findLastRealVol, isRealVol, truthy, toNumber, orDefault,
      sampleVol, sampleHeavy, defaultVol]

/-! ## Range of the wave target -/

theorem roundTo5_multiple (x : ℚ) : IsMultipleOf5 (roundTo5 x) :=
  ⟨mathRound (x / 5), by unfold roundTo5; ring⟩

theorem calculateWaveTarget_standard (lift : Lift) (history : List Entry) (e : Entry)
    (hfind : findLastRealVol history = some e) :
    calculateWaveTarget lift history false =
      if e.volFail = "no" then
        if orDefault e.volReps 4 = 4 then
          { weight := toNumber e.volActual, reps := 5, note := "Step Up: Add Volume (3x5)",
            isPause := false }
        else if orDefault e.volReps 4 = 5 then
          { weight := toNumber e.volActual, reps := 6, note := "Step Up: Peak Volume (3x6)",
            isPause := false }
        else if orDefault e.volReps 4 ≥ 6 then
          { weight := toNumber e.volActual + 5, reps := 4,
            note := "Wave Complete! +5lbs, Reset to 3x4", isPause := false }
        else
          { weight := defaultVol lift, reps := 4, note := "Wave Start", isPause := false }
      else
        { weight := toNumber e.volActual, reps := orDefault e.volReps 4,
          note := "Missed Reps. Retry same weight/reps.", isPause := false } := by
  simp [calculateWaveTarget, hfind]

theorem singleton_split {α : Type} {a e : α} {pre post : List α}
    (h : [a] = pre ++ e :: post) : e = a := by
  cases pre with
  | nil => exact (List.cons.inj h).1.symm
  | cons p ps =>
    have hlen := congrArg List.length h
    simp at hlen

/-- C7 (counterexample): a failed record carrying 8 reps is repeated as 8 reps,
which is none of 3, 4, 5, 6. -/
theorem wave_reps_out_of_range :
    (calculateWaveTarget Lift.squat [sampleVol 315 8 "yes"] false).reps = 8 ∧
    ¬ IsWaveReps (calculateWaveTarget Lift.squat [sampleVol 315 8 "yes"] false).reps := by
  have h8 : (calculateWaveTarget Lift.squat [sampleVol 315 8 "yes"] false).reps = 8 := by
    have hyn : ¬ ("yes" = "no") := by decide
    norm_num [calculateWaveTarget, findLastRealVol, isRealVol, truthy, toNumber, orDefault,
      sampleVol, sampleHeavy, hyn]
  refine ⟨h8, ?_⟩
  rw [h8]
  unfold IsWaveReps
  norm_num

/-- C7 (amended): the reps returned are one of 3, 4, 5, 6 on every pivot call,
and on a non-pivot call whenever the most recent non-pivot record with a volume
weight, if there is one, either succeeded or has reps (`volReps || 4`) among
3, 4, 5, 6. -/
theorem wave_reps_range (lift : Lift) (history : List Entry) (pivot : Bool)
    (hrec : pivot = true ∨ ∀ (pre post : List Entry) (e : Entry), history = pre ++ e :: post →
      isRealVol e = true → (∀ x ∈ post, isRealVol x = false) →
      e.volFail = "no" ∨ IsWaveReps (orDefault e.volReps 4)) :
    IsWaveReps (calculateWaveTarget lift history pivot).reps := by
  cases pivot with
  | true => simp [calculateWaveTarget, IsWaveReps]
  | false =>
    have hrec2 := hrec.resolve_left (by simp)
    rcases findLastRealVol_cases history with ⟨hnone, _⟩ | ⟨pre, e, post, hsplit, hreal, hpost, hfind⟩
    · simp [calculateWaveTarget, hnone, IsWaveReps]
    · rw [calculateWaveTarget_standard lift history e hfind]
      by_cases hok : e.volFail = "no"
      · rw [if_pos hok]
        unfold IsWaveReps
        split_ifs <;> norm_num
      · rw [if_neg hok]
        exact (hrec2 pre post e hsplit hreal hpost).resolve_left hok

/-- Witness of `wave_reps_range`: a failed 315 × 5 record. -/
theorem wave_reps_range_witness :
    IsWaveReps (calculateWaveTarget Lift.squat [sampleVol 315 5 "yes"] false).reps :=
  wave_reps_range Lift.squat [sampleVol 315 5 "yes"] false
    (Or.inr fun pre post e hsplit _ _ => by
      have he := singleton_split hsplit
      subst he
      right
      norm_num [IsWaveReps, orDefault, sampleVol])

/-- C8 (counterexample): a succeeded 312 × 4 record is carried forward as
weight 312, which is not a multiple of 5. -/
theorem wave_weight_not_multiple :
    (calculateWaveTarget Lift.squat [sampleVol 312 4 "no"] false).weight = 312 ∧
    ¬ IsMultipleOf5 (calculateWaveTarget Lift.squat [sampleVol 312 4 "no"] false).weight := by
  have hw : (calculateWaveTarget Lift.squat [sampleVol 312 4 "no"] false).weight = 312 := by
    norm_num [calculateWaveTarget, findLastRealVol, isRealVol, truthy, toNumber, orDefault,
      sampleVol, sampleHeavy]
  refine ⟨hw, ?_⟩
  rw [hw]
  rintro ⟨k, hk⟩
  have hk2 : (312 : ℤ) = 5 * k := by exact_mod_cast hk
  omega

/-- C8 (amended): the weight returned is a multiple of 5 on every pivot call,
and on a non-pivot call whenever the most recent non-pivot record with a volume
weight, if there is one, has a volume weight that is a multiple of 5. -/
theorem wave_weight_multiple (lift : Lift) (history : List Entry) (pivot : Bool)
    (hrec : pivot = true ∨ ∀ (pre post : List Entry) (e : Entry), history = pre ++ e :: post →
      isRealVol e = true → (∀ x ∈ post, isRealVol x = false) →
      IsMultipleOf5 (toNumber e.volActual)) :
    IsMultipleOf5 (calculateWaveTarget lift history pivot).weight := by
  have hdef : IsMultipleOf5 (defaultVol lift) := by
    cases lift
    · exact ⟨73, by norm_num [defaultVol]⟩
    · exact ⟨45, by norm_num [defaultVol]⟩
  cases pivot with
  | true =>
    simp only [calculateWaveTarget, if_true]
    exact roundTo5_multiple _
  | false =>
    have hrec2 := hrec.resolve_left (by simp)
    rcases findLastRealVol_cases history with ⟨hnone, _⟩ | ⟨pre, e, post, hsplit, hreal, hpost, hfind⟩
    · simpa [calculateWaveTarget, hnone] using hdef
    · obtain ⟨k, hk⟩ := hrec2 pre post e hsplit hreal hpost
      have hplus : IsMultipleOf5 (toNumber e.volActual + 5) :=
        ⟨k + 1, by rw [hk]; push_cast; ring⟩
      rw [calculateWaveTarget_standard lift history e hfind]
      split_ifs <;> first | exact ⟨k, hk⟩ | exact hplus | exact hdef

/-- Witness of `wave_weight_multiple`: a succeeded 315 × 6 record. -/
theorem wave_weight_multiple_witness :
    IsMultipleOf5 (calculateWaveTarget Lift.squat [sampleVol 315 6 "no"] false).weight :=
  wave_weight_multiple Lift.squat [sampleVol 315 6 "no"] false
    (Or.inr fun pre post e hsplit _ _ => by
      have he := singleton_split hsplit
      subst he
      exact ⟨63, by norm_num [toNumber, sampleVol]⟩)

/-! ## Heavy-day suggestion generator -/

/-- C9: the suggestion is absent for the empty history and whenever the last
record has no top single (`heavySingle` is `null` or the `0` stored for an
empty field), for either pivot value; it is present whenever the last record
has a positive top single. -/
theorem suggestion_absent_or_present :
    (∀ pivot : Bool, generateHeavySuggestion [] pivot = none) ∧
    (∀ (pre : List Entry) (last : Entry) (pivot : Bool),
      last.heavySingle = none ∨ last.heavySingle = some 0 →
      generateHeavySuggestion (pre ++ [last]) pivot = none) ∧
    (∀ (pre : List Entry) (last : Entry) (pivot : Bool) (s : ℚ),
      last.heavySingle = some s → 0 < s →
      ∃ sg : Suggestion, generateHeavySuggestion (pre ++ [last]) pivot = some sg) := by
  refine ⟨fun pivot => rfl, ?_, ?_⟩
  · intro pre last pivot hs
    rcases hs with hs | hs <;> simp [generateHeavySuggestion, hs, truthy]
  · intro pre last pivot s hs hpos
    have hne : s ≠ 0 := ne_of_gt hpos
    cases pivot <;> simp [generateHeavySuggestion, hs, truthy, hne]

/-- Witness of `suggestion_absent_or_present`: a last record with top single 500
yields a suggestion under pivot, and one whose top single is `0` yields none. -/
theorem suggestion_absent_or_present_witness :
    (∃ sg : Suggestion, generateHeavySuggestion ([] ++ [sampleHeavy]) true = some sg) ∧
    generateHeavySuggestion ([sampleHeavy] ++ [{ sampleHeavy with heavySingle := some 0 }])
      false = none :=
  ⟨suggestion_absent_or_present.2.2 [] sampleHeavy true 500 rfl (by norm_num),
   suggestion_absent_or_present.2.1 [sampleHeavy] { sampleHeavy with heavySingle := some 0 }
     false (Or.inr rfl)⟩

/-- C10: when the last record has a top single `hs` and `backdownFail = "yes"`,
the non-pivot suggestion has target `round5 (hs × 0.90)` with reason
"Backdown Fail.", whatever its overshoot, RPE and quality are. -/
theorem backdown_fail_priority (pre : List Entry) (last : Entry) (hs : ℚ)
    (hsingle : last.heavySingle = some hs) (hne : hs ≠ 0)
    (hfail : last.backdownFail = "yes") :
    generateHeavySuggestion (pre ++ [last]) false =
      some { target := roundTo5 (hs * 0.90),
             text := SuggestionText.plain "Backdown Fail." (roundTo5 (hs * 0.90)) } := by
  simp [generateHeavySuggestion, baseRule, hsingle, truthy, toNumber, hne, hfail]

/-- Witness of `backdown_fail_priority`: top single 500 with a failed backdown,
an overshoot, RPE 10 and bad quality gives target 450. -/
theorem backdown_fail_priority_witness :
    generateHeavySuggestion ([] ++ [sampleBackdownFail]) false =
      some { target := roundTo5 (500 * 0.90),
             text := SuggestionText.plain "Backdown Fail." (roundTo5 (500 * 0.90)) } ∧
    roundTo5 (500 * 0.90) = 450 :=
  ⟨backdown_fail_priority [] sampleBackdownFail 500 rfl (by norm_num) rfl,
   by norm_num [roundTo5, mathRound, Int.floor_eq_iff]⟩

/-- C11: when the last record has a top single `hs`, no backdown failure and
either an overshoot or a recorded RPE of at least 9.5, the non-pivot suggestion
has target `round5 (hs × 0.92)` with reason "Overshoot Correction.", whatever
the quality is. -/
theorem overshoot_correction (pre : List Entry) (last : Entry) (hs : ℚ)
    (hsingle : last.heavySingle = some hs) (hne : hs ≠ 0)
    (hback : last.backdownFail ≠ "yes")
    (hover : last.overshoot = "yes" ∨ ∃ rpe : ℚ, last.heavyRpe = some rpe ∧ 9.5 ≤ rpe) :
    generateHeavySuggestion (pre ++ [last]) false =
      some { target := roundTo5 (hs * 0.92),
             text := SuggestionText.plain "Overshoot Correction." (roundTo5 (hs * 0.92)) } := by
  rcases hover with hover | ⟨rpe, hrpe, hge⟩
  · simp [generateHeavySuggestion, baseRule, hsingle, truthy, toNumber, hne, hback, hover]
  · have hrne : rpe ≠ 0 := by
      intro h0
      rw [h0] at hge
      norm_num at hge
    simp [generateHeavySuggestion, baseRule, hsingle, truthy, toNumber, hne, hback, hrpe,
      hrne, hge]

/-- Witness of `overshoot_correction`: an overshoot at good quality and RPE 8. -/
theorem overshoot_correction_witness :
    generateHeavySuggestion ([] ++ [sampleOvershoot]) false =
      some { target := roundTo5 (500 * 0.92),
             text := SuggestionText.plain "Overshoot Correction." (roundTo5 (500 * 0.92)) } ∧
    sampleOvershoot.heavyQuality = "good" ∧ sampleOvershoot.heavyRpe = some 8 ∧
    roundTo5 (500 * 0.92) = 460 :=
  ⟨overshoot_correction [] sampleOvershoot 500 rfl (by norm_num) (by decide) (Or.inl rfl),
   rfl, rfl, by norm_num [roundTo5, mathRound, Int.floor_eq_iff]⟩

/-- C12: when the last record has a top single `hs`, no backdown failure and no
overshoot, the non-pivot suggestion has target exactly `hs` if the RPE lies in
`[9, 9.5)` (reason "Hold RPE 8.") and if the RPE is below 9 while it is not the
case that quality is good and RPE at most 8 (reason "Maintenance."). -/
theorem hold_or_maintenance (pre : List Entry) (last : Entry) (hs rpe : ℚ)
    (hsingle : last.heavySingle = some hs) (hne : hs ≠ 0)
    (hback : last.backdownFail ≠ "yes") (hover : last.overshoot ≠ "yes")
    (hrpe : last.heavyRpe = some rpe) :
    (9 ≤ rpe ∧ rpe < 9.5 →
      generateHeavySuggestion (pre ++ [last]) false =
        some { target := hs, text := SuggestionText.plain "Hold RPE 8." hs }) ∧
    (rpe < 9 ∧ ¬ (last.heavyQuality = "good" ∧ rpe ≤ 8) →
      generateHeavySuggestion (pre ++ [last]) false =
        some { target := hs, text := SuggestionText.plain "Maintenance." hs }) := by
  constructor
  · rintro ⟨h9, h95⟩
    have hrne : rpe ≠ 0 := by
      intro h0
      rw [h0] at h9
      norm_num at h9
    have hn95 : ¬ (9.5 ≤ rpe) := not_le.mpr h95
    simp [generateHeavySuggestion, baseRule, hsingle, truthy, toNumber, hne, hback, hover,
      hrpe, hrne, hn95, h9]
  · rintro ⟨h9, hnot⟩
    have hn9 : ¬ (9 ≤ rpe) := not_le.mpr h9
    have hn95 : ¬ (9.5 ≤ rpe) := fun h => hn9 (le_trans (by norm_num) h)
    have hclean : ¬ (last.heavyQuality = "good" ∧ rpe ≤ 8) := hnot
    simp only [not_and] at hclean
    by_cases hq : last.heavyQuality = "good"
    · have h8 := hclean hq
      simp [generateHeavySuggestion, baseRule, hsingle, truthy, toNumber, hne, hback, hover,
        hrpe, hn95, hn9, hq, h8]
    · simp [generateHeavySuggestion, baseRule, hsingle, truthy, toNumber, hne, hback, hover,
        hrpe, hn95, hn9, hq]

/-- Witness of `hold_or_maintenance`: RPE 9.2 holds the top single of 500. -/
theorem hold_or_maintenance_witness :
    generateHeavySuggestion ([] ++ [sampleHold]) false =
      some { target := 500, text := SuggestionText.plain "Hold RPE 8." 500 } :=
  (hold_or_maintenance [] sampleHold 500 9.2 rfl (by norm_num) (by decide) (by decide) rfl).1
    (by norm_num)

/-- C13: when the last record has a top single `hs`, no backdown failure, no
overshoot, good quality and an RPE of at most 8, the non-pivot suggestion has
target `hs + 5` with reason "Clean RPE 8.". -/
theorem clean_rpe_increment (pre : List Entry) (last : Entry) (hs rpe : ℚ)
    (hsingle : last.heavySingle = some hs) (hne : hs ≠ 0)
    (hback : last.backdownFail ≠ "yes") (hover : last.overshoot ≠ "yes")
    (hq : last.heavyQuality = "good") (hrpe : last.heavyRpe = some rpe) (hle : rpe ≤ 8) :
    generateHeavySuggestion (pre ++ [last]) false =
      some { target := hs + 5, text := SuggestionText.plain "Clean RPE 8." (hs + 5) } := by
  have hn9 : ¬ (9 ≤ rpe) := fun h => absurd (le_trans h hle) (by norm_num)
  have hn95 : ¬ (9.5 ≤ rpe) := fun h => absurd (le_trans h hle) (by norm_num)
  simp [generateHeavySuggestion, baseRule, hsingle, truthy, toNumber, hne, hback, hover,
    hrpe, hn95, hn9, hq, hle]

/-- Witness of `clean_rpe_increment`: good quality at RPE 8 on 500 gives 505. -/
theorem clean_rpe_increment_witness :
    generateHeavySuggestion ([] ++ [sampleHeavy]) false =
      some { target := 500 + 5, text := SuggestionText.plain "Clean RPE 8." (500 + 5) } :=
  clean_rpe_increment [] sampleHeavy 500 8 rfl (by norm_num) (by decide) (by decide) rfl rfl
    (by norm_num)

/-- C14: the pivot flag does not change when a suggestion is absent, and
whenever the non-pivot suggestion exists the pivot suggestion exists with
target `round5 (nonPivotTarget × 0.85)`. -/
theorem pivot_suggestion_scaling (history : List Entry) :
    (generateHeavySuggestion history true = none ↔
      generateHeavySuggestion history false = none) ∧
    ∀ s : Suggestion, generateHeavySuggestion history false = some s →
      ∃ p : Suggestion, generateHeavySuggestion history true = some p ∧
        p.target = roundTo5 (s.target * 0.85) := by
  unfold generateHeavySuggestion
  cases history.getLast? with
  | none => simp
  | some last =>
    by_cases hs : truthy last.heavySingle = true
    · simp only [hs, if_true]
      refine ⟨by simp, fun s h => ?_⟩
      simp only [Bool.false_eq_true, if_false, Option.some.injEq] at h
      subst h
      exact ⟨_, rfl, rfl⟩
    · simp [hs]

/-- Witness of `pivot_suggestion_scaling`: for good quality at RPE 8 on 500 the
non-pivot target is 505 and the pivot target is `roundTo5 (505 × 0.85)`, which
is 430. -/
theorem pivot_suggestion_scaling_witness :
    (∃ p : Suggestion, generateHeavySuggestion [sampleHeavy] true = some p ∧
      p.target = roundTo5 ((500 + 5) * 0.85)) ∧
    roundTo5 ((500 + 5) * 0.85) = 430 :=
  ⟨(pivot_suggestion_scaling [sampleHeavy]).2
      { target := 500 + 5, text := SuggestionText.plain "Clean RPE 8." (500 + 5) }
      (by norm_num [generateHeavySuggestion, baseRule, truthy, toNumber, sampleHeavy,
        (by decide : ¬ ("no" = "yes"))]),
   by norm_num [roundTo5, mathRound, Int.floor_eq_iff]⟩

/-- C15: `roundTo5` is idempotent, where `roundTo5 x` is `Math.round (x / 5)`
times 5 and `Math.round` rounds a half up. -/
theorem roundTo5_idempotent (x : ℚ) :
    roundTo5 (roundTo5 x) = roundTo5 x ∧
    roundTo5 x = (mathRound (x / 5) : ℚ) * 5 ∧
    ∀ n : ℤ, mathRound ((n : ℚ) + 1 / 2) = n + 1 := by
  have hhalf : ⌊(1 / 2 : ℚ)⌋ = 0 := by
    rw [Int.floor_eq_iff]
    norm_num
  refine ⟨?_, rfl, fun n => ?_⟩
  · have hk : mathRound (((mathRound (x / 5) : ℤ) : ℚ) * 5 / 5) = mathRound (x / 5) := by
      rw [mul_div_assoc, div_self (by norm_num : (5 : ℚ) ≠ 0), mul_one]
      unfold mathRound
      rw [Int.floor_int_add, hhalf, add_zero]
    unfold roundTo5
    rw [hk]
  · unfold mathRound
    have h1 : (n : ℚ) + 1 / 2 + 1 / 2 = ((n + 1 : ℤ) : ℚ) := by
      push_cast
      ring
    rw [h1, Int.floor_intCast]

/-! ## Logic gates -/

theorem checkFatigue_not_heavy (cur : Session) (history : List Entry)
    (h : includes cur.type "heavy" = false) :
    checkFatigue cur history = .ok { triggered := false } := by
  simp [checkFatigue, h]

theorem checkFatigue_short (cur : Session) (history : List Entry)
    (h : (prevSessionsOf cur history).length < 2) :
    checkFatigue cur history = .ok { triggered := false } := by
  unfold checkFatigue
  split
  · rfl
  · simp [h]

theorem checkFatigue_two (cur : Session) (history : List Entry) (last1 last2 : Entry)
    (rest : List Entry) (hinc : includes cur.type "heavy" = true)
    (hprev : prevSessionsOf cur history = last1 :: last2 :: rest) :
    checkFatigue cur history =
      match cur.performance, last1.performance, last2.performance with
      | some pc, some p1, some p2 =>
        if jsLt pc.topSingle p1.topSingle && jsLt p1.topSingle p2.topSingle then
          .ok { triggered := true,
                message := some
                  "Fatigue accumulation detected. Performance regression over 3 sessions.",
                action := some "activate_pivot" }
        else .ok { triggered := false }
      | _, _, _ => .error .typeError := by
  unfold checkFatigue
  simp only [hinc, hprev]
  rcases hpc : cur.performance with _ | pc <;> rcases hp1 : last1.performance with _ | p1 <;>
    rcases hp2 : last2.performance with _ | p2 <;>
    simp [readPerformance, bind, Except.bind, pure, Except.pure]

theorem checkFatigue_tops (cur : Session) (history : List Entry) (last1 last2 : Entry)
    (rest : List Entry) (c t1 t2 : ℚ) (hinc : includes cur.type "heavy" = true)
    (hprev : prevSessionsOf cur history = last1 :: last2 :: rest)
    (hc : topSingleOf cur.performance = some c) (h1 : topSingleOf last1.performance = some t1)
    (h2 : topSingleOf last2.performance = some t2) :
    checkFatigue cur history =
      if c < t1 ∧ t1 < t2 then
        .ok { triggered := true,
              message := some
                "Fatigue accumulation detected. Performance regression over 3 sessions.",
              action := some "activate_pivot" }
      else .ok { triggered := false } := by
  rw [checkFatigue_two cur history last1 last2 rest hinc hprev]
  rcases hpc : cur.performance with _ | pc
  · simp [topSingleOf, hpc] at hc
  rcases hp1 : last1.performance with _ | p1
  · simp [topSingleOf, hp1] at h1
  rcases hp2 : last2.performance with _ | p2
  · simp [topSingleOf, hp2] at h2
  simp only [topSingleOf, hpc, hp1, hp2, Option.bind] at hc h1 h2
  simp [hc, h1, h2, jsLt]

/-- C16: `prevSessions` is the list of history records of the same type and
another id, ordered by descending date, so its first two records `last1`,
`last2` are the two most recent ones.  `checkFatigue` triggers if and only if
the current type contains "heavy", `prevSessions` has at least two records and
the three top singles exist with `current < last1 < last2`; when it triggers the
action is `activate_pivot`; a non-heavy session, fewer than two previous
records, or a triple that is not strictly decreasing give `triggered = false`. -/
theorem checkFatigue_triggers_iff (cur : Session) (history : List Entry) :
    (prevSessionsOf cur history).Perm
      (history.filter fun s =>
        decide (s.type = some cur.type) && decide (some s.id ≠ cur.id)) ∧
    List.Sorted (fun a b : Entry => b.date ≤ a.date) (prevSessionsOf cur history) ∧
    ((∃ r : GateResult, checkFatigue cur history = .ok r ∧ r.triggered = true) ↔
      includes cur.type "heavy" = true ∧
      ∃ (last1 last2 : Entry) (rest : List Entry) (c t1 t2 : ℚ),
        prevSessionsOf cur history = last1 :: last2 :: rest ∧
        topSingleOf cur.performance = some c ∧ topSingleOf last1.performance = some t1 ∧
        topSingleOf last2.performance = some t2 ∧ c < t1 ∧ t1 < t2) ∧
    (∀ r : GateResult, checkFatigue cur history = .ok r → r.triggered = true →
      r.action = some "activate_pivot") ∧
    (includes cur.type "heavy" = false →
      checkFatigue cur history = .ok { triggered := false }) ∧
    ((prevSessionsOf cur history).length < 2 →
      checkFatigue cur history = .ok { triggered := false }) ∧
    (∀ (last1 last2 : Entry) (rest : List Entry) (c t1 t2 : ℚ),
      prevSessionsOf cur history = last1 :: last2 :: rest →
      topSingleOf cur.performance = some c → topSingleOf last1.performance = some t1 →
      topSingleOf last2.performance = some t2 → ¬ (c < t1 ∧ t1 < t2) →
      checkFatigue cur history = .ok { triggered := false }) := by
  haveI : IsTotal Entry (fun a b : Entry => b.date ≤ a.date) :=
    ⟨fun a b => le_total b.date a.date⟩
  haveI : IsTrans Entry (fun a b : Entry => b.date ≤ a.date) :=
    ⟨fun a b c hab hbc => le_trans hbc hab⟩
  have hshape : ∀ r : GateResult, checkFatigue cur history = .ok r → r.triggered = true →
      includes cur.type "heavy" = true ∧
      ∃ (last1 last2 : Entry) (rest : List Entry) (c t1 t2 : ℚ),
        prevSessionsOf cur history = last1 :: last2 :: rest ∧
        topSingleOf cur.performance = some c ∧ topSingleOf last1.performance = some t1 ∧
        topSingleOf last2.performance = some t2 ∧ c < t1 ∧ t1 < t2 ∧
        r.action = some "activate_pivot" := by
    intro r hr htrig
    rcases Bool.eq_false_or_eq_true (includes cur.type "heavy") with hinc | hinc
    swap
    · rw [checkFatigue_not_heavy cur history hinc] at hr
      cases hr
      simp at htrig
    refine ⟨hinc, ?_⟩
    rcases hprev : prevSessionsOf cur history with _ | ⟨last1, _ | ⟨last2, rest⟩⟩
    · rw [checkFatigue_short cur history (by simp [hprev])] at hr
      cases hr
      simp at htrig
    · rw [checkFatigue_short cur history (by simp [hprev])] at hr
      cases hr
      simp at htrig
    · rw [checkFatigue_two cur history last1 last2 rest hinc hprev] at hr
      rcases hpc : cur.performance with _ | pc
      · simp [hpc] at hr
      rcases hp1 : last1.performance with _ | p1
      · simp [hpc, hp1] at hr
      rcases hp2 : last2.performance with _ | p2
      · simp [hpc, hp1, hp2] at hr
      simp only [hpc, hp1, hp2] at hr
      split at hr
      · rename_i hlt
        simp only [Bool.and_eq_true] at hlt
        rcases hc : pc.topSingle with _ | c
        · simp [hc, jsLt] at hlt
        rcases h1 : p1.topSingle with _ | t1
        · simp [hc, h1, jsLt] at hlt
        rcases h2 : p2.topSingle with _ | t2
        · simp [hc, h1, h2, jsLt] at hlt
        simp only [hc, h1, h2, jsLt, decide_eq_true_eq] at hlt
        cases hr
        exact ⟨last1, last2, rest, c, t1, t2, rfl, by simp [topSingleOf, hc],
          by simp [topSingleOf, hp1, h1], by simp [topSingleOf, hp2, h2], hlt.1, hlt.2, rfl⟩
      · cases hr
        simp at htrig
  refine ⟨List.perm_insertionSort _ _, List.sorted_insertionSort _ _, ⟨?_, ?_⟩, ?_,
    checkFatigue_not_heavy cur history, checkFatigue_short cur history, ?_⟩
  · rintro ⟨r, hr, htrig⟩
    obtain ⟨hinc, l1, l2, rest, c, t1, t2, hp, hc, h1, h2, hlt1, hlt2, _⟩ := hshape r hr htrig
    exact ⟨hinc, l1, l2, rest, c, t1, t2, hp, hc, h1, h2, hlt1, hlt2⟩
  · rintro ⟨hinc, l1, l2, rest, c, t1, t2, hp, hc, h1, h2, hlt1, hlt2⟩
    rw [checkFatigue_tops cur history l1 l2 rest c t1 t2 hinc hp hc h1 h2,
      if_pos ⟨hlt1, hlt2⟩]
    exact ⟨_, rfl, rfl⟩
  · intro r hr htrig
    obtain ⟨_, _, _, _, _, _, _, _, _, _, _, _, _, hact⟩ := hshape r hr htrig
    exact hact
  · intro l1 l2 rest c t1 t2 hp hc h1 h2 hnot
    rcases Bool.eq_false_or_eq_true (includes cur.type "heavy") with hinc | hinc
    · rw [checkFatigue_tops cur history l1 l2 rest c t1 t2 hinc hp hc h1 h2, if_neg hnot]
    · exact checkFatigue_not_heavy cur history hinc

/-- Witness of `checkFatigue_triggers_iff`: with previous heavy squat sessions
of 500 (date 1) and 490 (date 2), a current top single of 480 triggers. -/
theorem checkFatigue_triggers_iff_witness :
    ∃ r : GateResult,
      checkFatigue (sampleCurrent 480) [samplePerf "a" 1 500, samplePerf "b" 2 490] = .ok r ∧
      r.triggered = true :=
  (checkFatigue_triggers_iff (sampleCurrent 480)
      [samplePerf "a" 1 500, samplePerf "b" 2 490]).2.2.1.mpr
    ⟨by decide, samplePerf "b" 2 490, samplePerf "a" 1 500, [], 480, 490, 500, by decide,
      rfl, rfl, rfl, by norm_num, by norm_num⟩

theorem commitAxialLoad_500 : commitAxialLoad 500 false = 4190 := by
  norm_num [commitAxialLoad, commitBackdownWeight, roundTo5, mathRound, Int.floor_eq_iff]

theorem commitAxialLoad_495 : commitAxialLoad 495 false = 4140 := by
  norm_num [commitAxialLoad, commitBackdownWeight, roundTo5, mathRound, Int.floor_eq_iff]

/-- C17 (evaluation at the failing input): the first two heavy squat commits
store `sampleHeavy` and `sampleSecond`, records without a `performance` object.
On that history `checkFatigue` raises a `TypeError` for the third heavy squat
session, and the third commit fails with it. -/
theorem third_heavy_commit_raises :
    calculateAndSaveHeavy Lift.squat false (sampleInputs "a" 0 500) [] = .ok [sampleHeavy] ∧
    calculateAndSaveHeavy Lift.squat false (sampleInputs "b" 7 495) [sampleHeavy] =
      .ok [sampleHeavy, sampleSecond] ∧
    checkFatigue (sampleCurrent 490) [sampleHeavy, sampleSecond] = .error .typeError ∧
    calculateAndSaveHeavy Lift.squat false (sampleInputs "c" 14 490)
      [sampleHeavy, sampleSecond] = .error .typeError := by
  have htype : "heavy_" ++ "squat" = "heavy_squat" := by decide
  refine ⟨?_, ?_, rfl, rfl⟩
  · have hf : checkFatigue
        { type := heavyType Lift.squat, id := some "temp",
          performance := some { topSingle := some 500 } }
        (getFilteredHistory Lift.squat []) = .ok { triggered := false } := rfl
    have hw : calculateWaveTarget Lift.squat (getFilteredHistory Lift.squat []) false =
        { weight := 365, reps := 4, note := "Wave Start", isPause := false } := by decide
    simp only [calculateAndSaveHeavy, sampleInputs, hf, hw, commitAxialLoad_500]
    norm_num [checkAxialLoad, readPerformance, jsGt, jsLt, checkSandbagging, sampleHeavy,
      heavyType, Lift.key, bind, Except.bind, pure, Except.pure, htype]
  · have hf : checkFatigue
        { type := heavyType Lift.squat, id := some "temp",
          performance := some { topSingle := some 495 } }
        (getFilteredHistory Lift.squat [sampleHeavy]) = .ok { triggered := false } := rfl
    have hw : calculateWaveTarget Lift.squat (getFilteredHistory Lift.squat [sampleHeavy])
        false = { weight := 365, reps := 4, note := "Wave Start", isPause := false } := by
      decide
    simp only [calculateAndSaveHeavy, sampleInputs, hf, hw, commitAxialLoad_495]
    norm_num [checkAxialLoad, readPerformance, jsGt, jsLt, checkSandbagging, sampleHeavy,
      sampleSecond, heavyType, Lift.key, bind, Except.bind, pure, Except.pure, htype]

/-- C18: `checkSandbagging` triggers if and only if `topRPE ≤ 7.5` and
`volumeSuccess` is false; when it triggers the action is
`increase_volume_intensity`; an RPE of exactly 7.5 triggers and no RPE above
7.5 does. -/
theorem checkSandbagging_triggers_iff (topRPE : ℚ) (volumeSuccess : Bool) :
    ((checkSandbagging topRPE volumeSuccess).triggered = true ↔
      topRPE ≤ 7.5 ∧ volumeSuccess = false) ∧
    ((checkSandbagging topRPE volumeSuccess).triggered = true →
      (checkSandbagging topRPE volumeSuccess).action = some "increase_volume_intensity") ∧
    (checkSandbagging 7.5 false).triggered = true ∧
    (7.5 < topRPE → checkSandbagging topRPE volumeSuccess = { triggered := false }) := by
  refine ⟨?_, ?_, ?_, ?_⟩
  · unfold checkSandbagging
    split_ifs with h
    · simpa using h
    · simpa using h
  · unfold checkSandbagging
    split_ifs with h
    · intro _; rfl
    · intro h2; simp at h2
  · norm_num [checkSandbagging]
  · intro hgt
    have hn : ¬ (topRPE ≤ 7.5 ∧ volumeSuccess = false) := fun h => absurd h.1 (not_le.mpr hgt)
    simp only [checkSandbagging, if_neg hn]

/-- Witness of `checkSandbagging_triggers_iff`: an RPE of 7.6 with a failed
volume does not trigger. -/
theorem checkSandbagging_triggers_iff_witness :
    checkSandbagging 7.6 false = { triggered := false } :=
  (checkSandbagging_triggers_iff 7.6 false).2.2.2 (by norm_num)

/-- C19: for a session that carries its estimated load and RPE,
`checkAxialLoad` returns a result, which is triggered if and only if the type
is `heavy_squat` and the load exceeds the capacity or the RPE exceeds 9, and
then has action `reduce_saturday_load`; any session of another type is not
triggered; an RPE of exactly 9 with load equal to the capacity does not
trigger. -/
theorem checkAxialLoad_triggers_iff (sessionData : Session) (p : Performance)
    (maxCapacity load rpe : ℚ) (hperf : sessionData.performance = some p)
    (hload : p.axialLoad = some load) (hrpe : p.topRPE = some rpe) :
    checkAxialLoad sessionData maxCapacity =
      .ok (if sessionData.type = "heavy_squat" ∧ (load > maxCapacity ∨ rpe > 9) then
          { triggered := true,
            message := some "High Systemic Fatigue. Saturday session should be adjusted.",
            action := some "reduce_saturday_load" }
        else { triggered := false }) ∧
    ((∃ r : GateResult, checkAxialLoad sessionData maxCapacity = .ok r ∧ r.triggered = true) ↔
      sessionData.type = "heavy_squat" ∧ (load > maxCapacity ∨ rpe > 9)) ∧
    (∀ other : Session, other.type ≠ "heavy_squat" →
      checkAxialLoad other maxCapacity = .ok { triggered := false }) ∧
    checkAxialLoad (sampleAxial maxCapacity 9) maxCapacity = .ok { triggered := false } := by
  have hmain : ∀ (s : Session) (q : Performance) (l r : ℚ), s.performance = some q →
      q.axialLoad = some l → q.topRPE = some r →
      checkAxialLoad s maxCapacity =
        .ok (if s.type = "heavy_squat" ∧ (l > maxCapacity ∨ r > 9) then
            { triggered := true,
              message := some "High Systemic Fatigue. Saturday session should be adjusted.",
              action := some "reduce_saturday_load" }
          else { triggered := false }) := by
    intro s q l r hq hl hr
    unfold checkAxialLoad
    by_cases ht : s.type = "heavy_squat"
    · simp only [ht, ne_eq, not_true_eq_false, if_false, hq, readPerformance, hl, hr, jsGt,
        jsLt, bind, Except.bind, pure, Except.pure, true_and]
      by_cases hc : l > maxCapacity ∨ r > 9
      · have hb : (decide (maxCapacity < l) || decide ((9 : ℚ) < r)) = true := by
          simpa using hc
        rw [if_pos hb, if_pos hc]
      · have hb : ¬ ((decide (maxCapacity < l) || decide ((9 : ℚ) < r)) = true) := by
          simpa using hc
        rw [if_neg hb, if_neg hc]
    · simp [ht]
  refine ⟨hmain sessionData p load rpe hperf hload hrpe, ?_, ?_, ?_⟩
  · rw [hmain sessionData p load rpe hperf hload hrpe]
    by_cases hc : sessionData.type = "heavy_squat" ∧ (load > maxCapacity ∨ rpe > 9)
    · simp only [if_pos hc, hc, and_self, iff_true]
      exact ⟨_, rfl, rfl⟩
    · simp only [if_neg hc, hc, iff_false]
      rintro ⟨r, hr, htrig⟩
      cases hr
      simp at htrig
  · intro other hother
    simp [checkAxialLoad, hother]
  · rw [hmain (sampleAxial maxCapacity 9) _ maxCapacity 9 rfl rfl rfl]
    norm_num

/-- Witness of `checkAxialLoad_triggers_iff`: load 4190 under capacity 9000 at
RPE 9.5 triggers. -/
theorem checkAxialLoad_triggers_iff_witness :
    ∃ r : GateResult, checkAxialLoad (sampleAxial 4190 9.5) 9000 = .ok r ∧
      r.triggered = true :=
  (checkAxialLoad_triggers_iff (sampleAxial 4190 9.5)
      { axialLoad := some 4190, topRPE := some 9.5 } 9000 4190 9.5 rfl rfl rfl).2.1.mpr
    ⟨rfl, Or.inr (by norm_num)⟩

/-- C20: the axial load of the heavy branch is `topSingle × 1 + backdown × 3 × 3`
with `backdown = round5 (topSingle × 0.75)` under pivot and
`round5 (topSingle × 0.82)` otherwise; it equals `calculateAxialLoad` of one top
single of 1 rep and one back-off entry of 3 sets of 3 reps at `backdown`; for a
top single of 500 with pivot off it is 4190. -/
theorem commit_axial_load (heavySingle : ℚ) (pivotActive : Bool) :
    commitAxialLoad heavySingle pivotActive =
      heavySingle * 1 + commitBackdownWeight heavySingle pivotActive * 3 * 3 ∧
    commitBackdownWeight heavySingle true = roundTo5 (heavySingle * 0.75) ∧
    commitBackdownWeight heavySingle false = roundTo5 (heavySingle * 0.82) ∧
    commitAxialLoad heavySingle pivotActive =
      calculateAxialLoad { weight := heavySingle, reps := 1 }
        [{ weight := commitBackdownWeight heavySingle pivotActive, reps := 3, sets := 3 }] ∧
    commitAxialLoad 500 false = 4190 := by
  refine ⟨rfl, by simp [commitBackdownWeight], by simp [commitBackdownWeight], ?_, ?_⟩
  · simp [commitAxialLoad, calculateAxialLoad]
  · norm_num [commitAxialLoad, commitBackdownWeight, roundTo5, mathRound, Int.floor_eq_iff]

/-- C21 (counterexample): for a heavy squat session with top single 500, pivot
off and capacity 9000 the Axial Load Gate triggers at RPE 9.2 and at RPE 9.4. -/
theorem axial_gate_triggers_above_nine :
    commitAxialLoad 500 false = 4190 ∧
    checkAxialLoad (sampleAxial (commitAxialLoad 500 false) 9.2) 9000 =
      .ok { triggered := true,
            message := some "High Systemic Fatigue. Saturday session should be adjusted.",
            action := some "reduce_saturday_load" } ∧
    checkAxialLoad (sampleAxial (commitAxialLoad 500 false) 9.4) 9000 =
      .ok { triggered := true,
            message := some "High Systemic Fatigue. Saturday session should be adjusted.",
            action := some "reduce_saturday_load" } := by
  refine ⟨commitAxialLoad_500, ?_, ?_⟩ <;>
    norm_num [commitAxialLoad_500, checkAxialLoad, sampleAxial, readPerformance, jsGt, jsLt,
      bind, Except.bind, pure, Except.pure]

/-- C21 (amended): for a heavy squat session with top single 500, pivot off and
capacity 9000 (estimated load 4190) the Axial Load Gate triggers exactly when the
RPE exceeds 9: it triggers at 9.01, 9.2 and 9.4 and does not trigger at 9. -/
theorem axial_gate_scenario (rpe : ℚ) :
    checkAxialLoad (sampleAxial (commitAxialLoad 500 false) rpe) 9000 =
      .ok (if rpe > 9 then
          { triggered := true,
            message := some "High Systemic Fatigue. Saturday session should be adjusted.",
            action := some "reduce_saturday_load" }
        else { triggered := false }) ∧
    ((9.01 : ℚ) > 9 ∧ (9.2 : ℚ) > 9 ∧ (9.4 : ℚ) > 9 ∧ ¬ ((9 : ℚ) > 9)) := by
  refine ⟨?_, by norm_num⟩
  by_cases h : rpe > 9
  · have h2 : (9 : ℚ) < rpe := h
    norm_num [commitAxialLoad_500, checkAxialLoad, sampleAxial, readPerformance, jsGt, jsLt,
      bind, Except.bind, pure, Except.pure, h2]
  · have h2 : ¬ ((9 : ℚ) < rpe) := h
    norm_num [commitAxialLoad_500, checkAxialLoad, sampleAxial, readPerformance, jsGt, jsLt,
      bind, Except.bind, pure, Except.pure, h2]

/-! ## System autopilot -/

theorem foldl_autopilotStep (l : List Entry) :
    ∀ b f : ℕ, l.foldl autopilotStep (b, f) =
      (b + l.countP isBadSession, f + l.countP isFailedVolume) := by
  induction l with
  | nil => intro b f; simp
  | cons e es ih =>
    intro b f
    rw [List.foldl_cons]
    have hstep : autopilotStep (b, f) e =
        (b + (if isBadSession e = true then 1 else 0),
         f + (if isFailedVolume e = true then 1 else 0)) := by
      unfold autopilotStep isBadSession isFailedVolume
      by_cases h1 : (e.heavyQuality == "bad" || e.overshoot == "yes" ||
          e.backdownFail == "yes") = true <;>
        by_cases h2 : (e.volFail == "yes") = true <;> simp [h1, h2]
    rw [hstep, ih, List.countP_cons, List.countP_cons]
    ext <;> simp <;> ring

theorem sliceLast5_append (older recent : List Entry) (h5 : recent.length = 5) :
    sliceLast5 (older ++ recent) = recent := by
  unfold sliceLast5
  rw [List.length_append, h5, Nat.add_sub_cancel, List.drop_left]

theorem runSystemAutopilot_eq (lift : Lift) (allHistory : List Entry) (st : PivotControl) :
    runSystemAutopilot lift allHistory st =
      if 2 ≤ (recentSessions lift allHistory).countP isBadSession ∨
          2 ≤ (recentSessions lift allHistory).countP isFailedVolume then
        (.red, { pivotActive := true, switchChecked := true, switchDisabled := true })
      else if 0 < (recentSessions lift allHistory).countP isBadSession ∨
          0 < (recentSessions lift allHistory).countP isFailedVolume then
        (.yellow, { st with switchDisabled := false })
      else (.green, { st with switchDisabled := false }) := by
  unfold runSystemAutopilot recentSessions
  simp only [foldl_autopilotStep, Nat.zero_add, ge_iff_le, gt_iff_lt]

/-- C22: `recent` is the last `min 5 n` records of the lift's history.  With
`badCount` the number of those records that are bad, overshot or failed their
backdown and `failCount` the number with a failed volume, the autopilot takes
the red (lock) branch iff `badCount ≥ 2` or `failCount ≥ 2`, otherwise the
yellow (caution) branch iff `badCount > 0` or `failCount > 0`, otherwise the
green (nominal) branch.  The red branch turns pivot and its switch on and
disables the switch; the other branches leave pivot as it was.  Two histories
with the same last five records give the same outcome, and the empty history is
green. -/
theorem autopilot_decision (lift : Lift) (allHistory : List Entry) (st : PivotControl) :
    recentSessions lift allHistory <:+ getFilteredHistory lift allHistory ∧
    (recentSessions lift allHistory).length =
      min 5 (getFilteredHistory lift allHistory).length ∧
    ((runSystemAutopilot lift allHistory st).1 = SystemStatus.red ↔
      2 ≤ (recentSessions lift allHistory).countP isBadSession ∨
      2 ≤ (recentSessions lift allHistory).countP isFailedVolume) ∧
    ((runSystemAutopilot lift allHistory st).1 = SystemStatus.yellow ↔
      ¬ (2 ≤ (recentSessions lift allHistory).countP isBadSession ∨
         2 ≤ (recentSessions lift allHistory).countP isFailedVolume) ∧
      (0 < (recentSessions lift allHistory).countP isBadSession ∨
       0 < (recentSessions lift allHistory).countP isFailedVolume)) ∧
    ((runSystemAutopilot lift allHistory st).1 = SystemStatus.green ↔
      (recentSessions lift allHistory).countP isBadSession = 0 ∧
      (recentSessions lift allHistory).countP isFailedVolume = 0) ∧
    ((runSystemAutopilot lift allHistory st).1 = SystemStatus.red →
      (runSystemAutopilot lift allHistory st).2 =
        { pivotActive := true, switchChecked := true, switchDisabled := true }) ∧
    ((runSystemAutopilot lift allHistory st).1 ≠ SystemStatus.red →
      (runSystemAutopilot lift allHistory st).2 = { st with switchDisabled := false }) ∧
    (∀ (other older older2 recent : List Entry), recent.length = 5 →
      getFilteredHistory lift allHistory = older ++ recent →
      getFilteredHistory lift other = older2 ++ recent →
      runSystemAutopilot lift other st = runSystemAutopilot lift allHistory st) ∧
    runSystemAutopilot lift [] st = (SystemStatus.green, { st with switchDisabled := false }) := by
  refine ⟨?_, ?_, ?_, ?_, ?_, ?_, ?_, ?_, ?_⟩
  · exact List.drop_suffix _ _
  · simp only [recentSessions, sliceLast5, List.length_drop]
    omega
  · rw [runSystemAutopilot_eq]
    split_ifs with h1 h2 <;> simp_all
  · rw [runSystemAutopilot_eq]
    split_ifs with h1 h2 <;> simp_all
  · rw [runSystemAutopilot_eq]
    split_ifs with h1 h2
    · simp only [reduceCtorEq, false_iff]
      omega
    · simp only [reduceCtorEq, false_iff]
      omega
    · simp only [true_iff]
      omega
  · rw [runSystemAutopilot_eq]
    split_ifs with h1 h2 <;> simp
  · rw [runSystemAutopilot_eq]
    split_ifs with h1 h2 <;> simp
  · intro other older older2 recent h5 hall hother
    rw [runSystemAutopilot_eq, runSystemAutopilot_eq]
    simp only [recentSessions, hall, hother, sliceLast5_append _ _ h5]
  · rfl

/-- Witness of `autopilot_decision`: an overshoot six sessions back does not
count, so a history with it and five clean sessions after it has the outcome of
the five clean sessions alone, which is green. -/
theorem autopilot_decision_witness :
    runSystemAutopilot Lift.squat
        [sampleOvershoot, sampleHeavy, sampleHeavy, sampleHeavy, sampleHeavy, sampleHeavy]
        { pivotActive := false, switchChecked := false, switchDisabled := true } =
      runSystemAutopilot Lift.squat
        [sampleHeavy, sampleHeavy, sampleHeavy, sampleHeavy, sampleHeavy]
        { pivotActive := false, switchChecked := false, switchDisabled := true } ∧
    (runSystemAutopilot Lift.squat
        [sampleHeavy, sampleHeavy, sampleHeavy, sampleHeavy, sampleHeavy]
        { pivotActive := false, switchChecked := false, switchDisabled := true }).1 =
      SystemStatus.green :=
  ⟨(autopilot_decision Lift.squat
      [sampleHeavy, sampleHeavy, sampleHeavy, sampleHeavy, sampleHeavy]
      { pivotActive := false, switchChecked := false, switchDisabled := true }).2.2.2.2.2.2.2.1
      [sampleOvershoot, sampleHeavy, sampleHeavy, sampleHeavy, sampleHeavy, sampleHeavy]
      [] [sampleOvershoot] [sampleHeavy, sampleHeavy, sampleHeavy, sampleHeavy, sampleHeavy]
      rfl (by decide) (by decide),
   (autopilot_decision Lift.squat
      [sampleHeavy, sampleHeavy, sampleHeavy, sampleHeavy, sampleHeavy]
      { pivotActive := false, switchChecked := false, switchDisabled := true }).2.2.2.2.1.mpr
      ⟨by decide, by decide⟩⟩

/-! ## The two branches of the commit -/

theorem lastIndexWhere_eq_none {α : Type} (p : α → Bool) (l : List α) :
    lastIndexWhere p l = none ↔ ∀ a ∈ l, p a = false := by
  induction l with
  | nil => simp [lastIndexWhere]
  | cons x xs ih =>
    unfold lastIndexWhere
    cases hrec : lastIndexWhere p xs with
    | some i =>
      simp only [reduceCtorEq, false_iff]
      intro hall
      have hnone := ih.mpr fun a ha => hall a (List.mem_cons_of_mem _ ha)
      rw [hrec] at hnone
      exact absurd hnone (by simp)
    | none =>
      have hxs := ih.mp hrec
      by_cases hx : p x = true
      · simp [hx]
      · have hxf : p x = false := by simpa using hx
        simp only [hxf, Bool.false_eq_true, if_false, true_iff]
        intro a ha
        rcases List.mem_cons.mp ha with rfl | ha
        · exact hxf
        · exact hxs a ha

theorem lastIndexWhere_eq_some {α : Type} (p : α → Bool) (l : List α) (i : ℕ)
    (h : lastIndexWhere p l = some i) :
    (∃ a, l.get? i = some a ∧ p a = true) ∧
    ∀ (j : ℕ) (b : α), i < j → l.get? j = some b → p b = false := by
  induction l generalizing i with
  | nil => simp [lastIndexWhere] at h
  | cons x xs ih =>
    unfold lastIndexWhere at h
    cases hrec : lastIndexWhere p xs with
    | some k =>
      rw [hrec] at h
      simp only [Option.some.injEq] at h
      subst h
      obtain ⟨⟨a, ha, hpa⟩, hlater⟩ := ih k hrec
      refine ⟨⟨a, by simpa using ha, hpa⟩, fun j b hj hb => ?_⟩
      cases j with
      | zero => omega
      | succ m => exact hlater m b (by omega) (by simpa using hb)
    | none =>
      rw [hrec] at h
      have hxs := (lastIndexWhere_eq_none p xs).mp hrec
      by_cases hx : p x = true
      · simp only [hx, if_true, Option.some.injEq] at h
        subst h
        refine ⟨⟨x, by simp, hx⟩, fun j b hj hb => ?_⟩
        cases j with
        | zero => omega
        | succ m =>
          have hb2 : xs.get? m = some b := by simpa using hb
          exact hxs b (List.get?_mem hb2)
      · simp [hx] at h

theorem inLift_of_namesLift (lift : Lift) (e : Entry) (h : namesLift lift e = true) :
    inLift lift e = true := by
  unfold namesLift at h
  unfold inLift
  cases ht : e.type with
  | none => rfl
  | some t =>
    rw [ht] at h
    by_cases h0 : t = ""
    · simp [h0]
    · simpa [h0] using h

theorem calculateAndSaveVolume_eq_some (lift : Lift) (pivotActive : Bool) (w rpe : ℚ)
    (f : String) (full full2 : List Entry)
    (h : calculateAndSaveVolume lift pivotActive w rpe f full = some full2) :
    ∃ (i : ℕ) (last : Entry), lastIndexWhere (namesLift lift) full = some i ∧
      full.get? i = some last ∧
      full2 = full.set i
        { last with
          volActual := some w
          volRpe := some rpe
          volFail := f
          volReps := some (calculateWaveTarget lift (getFilteredHistory lift full)
            (last.pivot || pivotActive)).reps } := by
  by_cases hlen : (getFilteredHistory lift full).length = 0
  · simp only [calculateAndSaveVolume, hlen, if_true] at h
    exact absurd h (by simp)
  · cases hidx : lastIndexWhere (namesLift lift) full with
    | none =>
      simp only [calculateAndSaveVolume, hlen, if_false, hidx] at h
      exact absurd h (by simp)
    | some i =>
      cases hget : full.get? i with
      | none =>
        simp only [calculateAndSaveVolume, hlen, if_false, hidx, hget] at h
        exact absurd h (by simp)
      | some last =>
        simp only [calculateAndSaveVolume, hlen, if_false, hidx, hget,
          Option.some.injEq] at h
        exact ⟨i, last, rfl, hget, h.symm⟩

theorem calculateAndSaveVolume_isSome (lift : Lift) (pivotActive : Bool) (w rpe : ℚ)
    (f : String) (full : List Entry) (e : Entry) (he : e ∈ full)
    (hname : namesLift lift e = true) :
    ∃ full2, calculateAndSaveVolume lift pivotActive w rpe f full = some full2 := by
  have hmem : e ∈ getFilteredHistory lift full := by
    simp [getFilteredHistory, he, inLift_of_namesLift lift e hname]
  have hlen : ¬ (getFilteredHistory lift full).length = 0 := by
    intro h0
    rw [List.length_eq_zero] at h0
    rw [h0] at hmem
    simp at hmem
  cases hidx : lastIndexWhere (namesLift lift) full with
  | none =>
    have := (lastIndexWhere_eq_none _ _).mp hidx e he
    rw [hname] at this
    exact absurd this (by simp)
  | some i =>
    obtain ⟨⟨a, ha, _⟩, _⟩ := lastIndexWhere_eq_some _ _ i hidx
    unfold calculateAndSaveVolume
    simp only [hlen, if_false, hidx, ha]
    exact ⟨_, rfl⟩

/-- C24 (counterexample): a volume commit onto a lift whose most recent record
already carries a volume result (315 × 5) is not refused; the record's volume
result is overwritten with the new one (320 × 6). -/
theorem second_volume_attachment_overwrites :
    (sampleVol 315 5 "no").volActual = some 315 ∧
    calculateAndSaveVolume Lift.squat false 320 8 "no" [sampleVol 315 5 "no"] =
      some [sampleOverwritten] ∧
    sampleOverwritten.volActual = some 320 := by
  refine ⟨rfl, ?_, rfl⟩
  have hw : (calculateWaveTarget Lift.squat
      (getFilteredHistory Lift.squat [sampleVol 315 5 "no"]) false).reps = 6 := by
    have hin : getFilteredHistory Lift.squat [sampleVol 315 5 "no"] = [sampleVol 315 5 "no"] := by
      decide
    rw [hin]
    norm_num [calculateWaveTarget, findLastRealVol, isRealVol, truthy, toNumber, orDefault,
      sampleVol, sampleHeavy]
  have hsome := calculateAndSaveVolume_isSome Lift.squat false 320 8 "no"
    [sampleVol 315 5 "no"] (sampleVol 315 5 "no") (by simp) (by decide)
  obtain ⟨full2, h2⟩ := hsome
  obtain ⟨i, last, hidx, hget, hfull2⟩ :=
    calculateAndSaveVolume_eq_some Lift.squat false 320 8 "no" _ _ h2
  have hi : i = 0 := by
    have h0 : lastIndexWhere (namesLift Lift.squat) [sampleVol 315 5 "no"] = some 0 := by decide
    rw [h0] at hidx
    exact (Option.some.inj hidx).symm
  subst hi
  have hlast : last = sampleVol 315 5 "no" := by
    simp at hget
    exact hget.symm
  subst hlast
  have hp : ((sampleVol 315 5 "no").pivot || false) = false := rfl
  rw [h2, hfull2, hp, hw]
  rfl

/-- C24 (amended): when no record of the stored history names the lift, the
volume branch alerts and returns without writing.  When some record names the
lift, the commit stores the history in which the most recent such record, at
index `i`, has its volume result replaced by the new one and nothing else is
touched; this holds for every such record `last`, whether or not it already
carries a volume result. -/
theorem volume_commit_refusal (lift : Lift) (pivotActive : Bool) (w rpe : ℚ) (f : String)
    (full : List Entry) :
    ((∀ e ∈ full, namesLift lift e = false) →
      calculateAndSaveVolume lift pivotActive w rpe f full = none) ∧
    ((∃ e ∈ full, namesLift lift e = true) →
      ∃ (i : ℕ) (last : Entry),
        full.get? i = some last ∧ namesLift lift last = true ∧
        (∀ (j : ℕ) (b : Entry), i < j → full.get? j = some b → namesLift lift b = false) ∧
        calculateAndSaveVolume lift pivotActive w rpe f full =
          some (full.set i
            { last with
              volActual := some w
              volRpe := some rpe
              volFail := f
              volReps := some (calculateWaveTarget lift (getFilteredHistory lift full)
                (last.pivot || pivotActive)).reps }) ∧
        (full.set i
            { last with
              volActual := some w
              volRpe := some rpe
              volFail := f
              volReps := some (calculateWaveTarget lift (getFilteredHistory lift full)
                (last.pivot || pivotActive)).reps }).get? i =
          some
            { last with
              volActual := some w
              volRpe := some rpe
              volFail := f
              volReps := some (calculateWaveTarget lift (getFilteredHistory lift full)
                (last.pivot || pivotActive)).reps }) := by
  constructor
  · intro hall
    have hidx := (lastIndexWhere_eq_none (namesLift lift) full).mpr hall
    unfold calculateAndSaveVolume
    simp only [hidx]
    split <;> rfl
  · rintro ⟨e, he, hname⟩
    obtain ⟨full2, h2⟩ :=
      calculateAndSaveVolume_isSome lift pivotActive w rpe f full e he hname
    obtain ⟨i, last, hidx, hget, hfull2⟩ :=
      calculateAndSaveVolume_eq_some lift pivotActive w rpe f full full2 h2
    obtain ⟨⟨a, ha, hpa⟩, hlater⟩ := lastIndexWhere_eq_some _ _ i hidx
    have hal : a = last := by
      rw [hget] at ha
      exact (Option.some.inj ha).symm
    subst hal
    have hlt : i < full.length := by
      rw [List.get?_eq_getElem?] at hget
      exact (List.getElem?_eq_some_iff.mp hget).1
    refine ⟨i, a, hget, hpa, hlater, ?_, ?_⟩
    · rw [h2, hfull2]
    · rw [List.get?_eq_getElem?, List.getElem?_set_self hlt]

/-- Witness of `volume_commit_refusal`: a squat volume commit on a history
holding only a bench record is refused, and one on a history whose squat record
already carries 315 × 5 is written onto that record. -/
theorem volume_commit_refusal_witness :
    calculateAndSaveVolume Lift.squat false 320 8 "no" [sampleBench] = none ∧
    ∃ (i : ℕ) (last : Entry),
      [sampleVol 315 5 "no"].get? i = some last ∧ namesLift Lift.squat last = true ∧
      (∀ (j : ℕ) (b : Entry), i < j → [sampleVol 315 5 "no"].get? j = some b →
        namesLift Lift.squat b = false) ∧
      calculateAndSaveVolume Lift.squat false 320 8 "no" [sampleVol 315 5 "no"] =
        some ([sampleVol 315 5 "no"].set i
          { last with
            volActual := some 320
            volRpe := some 8
            volFail := "no"
            volReps := some (calculateWaveTarget Lift.squat
              (getFilteredHistory Lift.squat [sampleVol 315 5 "no"])
              (last.pivot || false)).reps }) ∧
      ([sampleVol 315 5 "no"].set i
          { last with
            volActual := some 320
            volRpe := some 8
            volFail := "no"
            volReps := some (calculateWaveTarget Lift.squat
              (getFilteredHistory Lift.squat [sampleVol 315 5 "no"])
              (last.pivot || false)).reps }).get? i =
        some
          { last with
            volActual := some 320
            volRpe := some 8
            volFail := "no"
            volReps := some (calculateWaveTarget Lift.squat
              (getFilteredHistory Lift.squat [sampleVol 315 5 "no"])
              (last.pivot || false)).reps } :=
  ⟨(volume_commit_refusal Lift.squat false 320 8 "no" [sampleBench]).1 (by decide),
   (volume_commit_refusal Lift.squat false 320 8 "no" [sampleVol 315 5 "no"]).2
     ⟨sampleVol 315 5 "no", by simp, by decide⟩⟩

/-- A heavy commit that succeeds appends one record whose `logicFlags` hold the
`triggered` fields returned by `checkSandbagging` and `checkFatigue`. -/
theorem heavy_commit_stores_two_flags (lift : Lift) (pivotActive : Bool) (inp : HeavyInputs)
    (full full2 : List Entry)
    (h : calculateAndSaveHeavy lift pivotActive inp full = .ok full2) :
    ∃ (e : Entry) (r : GateResult), full2 = full ++ [e] ∧
      checkFatigue
        { type := heavyType lift, id := some "temp",
          performance := some { topSingle := some inp.heavySingle } }
        (getFilteredHistory lift full) = .ok r ∧
      e.logicFlags =
        { sandbagging := (checkSandbagging inp.rpe (inp.backdownFail == "no")).triggered,
          fatigue := r.triggered } := by
  unfold calculateAndSaveHeavy at h
  cases hf : checkFatigue
      { type := heavyType lift, id := some "temp",
        performance := some { topSingle := some inp.heavySingle } }
      (getFilteredHistory lift full) with
  | error err => simp [hf, bind, Except.bind] at h
  | ok r =>
    simp only [hf, bind, Except.bind] at h
    split at h
    · split at h
      · exact absurd h (by simp)
      · simp only [pure, Except.pure, Except.ok.injEq] at h
        exact ⟨_, r, h.symm, rfl, rfl⟩
    · simp only [pure, Except.pure, Except.ok.injEq] at h
      exact ⟨_, r, h.symm, rfl, rfl⟩

/-- C23 (evaluation at the failing input): for a heavy squat commit of 500 at
RPE 9.5 on an empty history `checkAxialLoad` returns `triggered = true`, and
the stored record is `sampleHighRpe`, whose `logicFlags` hold only the
sandbagging and fatigue outcomes, both false. -/
theorem axial_outcome_not_stored :
    checkAxialLoad
      { type := "heavy_squat",
        performance := some
          { axialLoad := some (commitAxialLoad sampleHighRpeInputs.heavySingle false),
            topRPE := some sampleHighRpeInputs.rpe } }
      9000 =
      .ok { triggered := true,
            message := some "High Systemic Fatigue. Saturday session should be adjusted.",
            action := some "reduce_saturday_load" } ∧
    calculateAndSaveHeavy Lift.squat false sampleHighRpeInputs [] = .ok [sampleHighRpe] ∧
    sampleHighRpe.logicFlags = { sandbagging := false, fatigue := false } := by
  have htype : "heavy_" ++ "squat" = "heavy_squat" := by decide
  have hf : checkFatigue
      { type := heavyType Lift.squat, id := some "temp",
        performance := some { topSingle := some 500 } }
      (getFilteredHistory Lift.squat []) = .ok { triggered := false } := rfl
  have hw : calculateWaveTarget Lift.squat (getFilteredHistory Lift.squat []) false =
      { weight := 365, reps := 4, note := "Wave Start", isPause := false } := by decide
  refine ⟨?_, ?_, rfl⟩
  · norm_num [sampleHighRpeInputs, sampleInputs, commitAxialLoad_500, checkAxialLoad,
      readPerformance, jsGt, jsLt, bind, Except.bind, pure, Except.pure]
  · simp only [calculateAndSaveHeavy, sampleHighRpeInputs, sampleInputs, hf, hw,
      commitAxialLoad_500]
    norm_num [checkAxialLoad, readPerformance, jsGt, jsLt, checkSandbagging, sampleHeavy,
      sampleHighRpe, heavyType, Lift.key, bind, Except.bind, pure, Except.pure, htype]

/-- C27: when the most recent non-pivot record with a volume weight succeeded at
a recorded 1, 2 or 3 reps, the non-pivot target is the lift default (365 squat,
225 bench) for 4 reps with note "Wave Start", whatever weight was recorded. -/
theorem low_reps_restart_wave (lift : Lift) (pre post : List Entry) (e : Entry) (r : ℚ)
    (hreal : isRealVol e = true) (hpost : ∀ x ∈ post, isRealVol x = false)
    (hr : e.volReps = some r) (hlow : r = 1 ∨ r = 2 ∨ r = 3) (hok : e.volFail = "no") :
    calculateWaveTarget lift (pre ++ e :: post) false =
      { weight := if lift = Lift.squat then 365 else 225, reps := 4, note := "Wave Start",
        isPause := false } := by
  have hfind := findLastRealVol_split pre post e hreal hpost
  rw [calculateWaveTarget_standard lift _ e hfind, if_pos hok]
  have hreps : orDefault e.volReps 4 = r := by
    rcases hlow with h | h | h <;> subst h <;> simp [hr, orDefault]
  rw [hreps]
  have h4 : ¬ r = 4 := by rcases hlow with h | h | h <;> subst h <;> norm_num
  have h5 : ¬ r = 5 := by rcases hlow with h | h | h <;> subst h <;> norm_num
  have h6 : ¬ r ≥ 6 := by rcases hlow with h | h | h <;> subst h <;> norm_num
  rw [if_neg h4, if_neg h5, if_neg h6]
  cases lift <;> simp [defaultVol]

/-- Witness of `low_reps_restart_wave`: the 270 × 3 record written by a volume
commit made with the pivot toggle on sends the squat wave back to its start. -/
theorem low_reps_restart_wave_witness :
    calculateWaveTarget Lift.squat ([sampleVol 315 5 "no"] ++ sampleVol 270 3 "no" :: []) false =
      { weight := if Lift.squat = Lift.squat then 365 else 225, reps := 4,
        note := "Wave Start", isPause := false } :=
  low_reps_restart_wave Lift.squat [sampleVol 315 5 "no"] [] (sampleVol 270 3 "no") 3
    (by decide) (by simp) rfl (Or.inr (Or.inr rfl)) rfl

/-- C28: a volume commit that succeeds rewrites exactly one record, the last
record of the stored history whose type names the current lift, and in it only
`volActual`, `volRpe`, `volFail` and `volReps`; the history keeps its length and
every other position keeps its record. -/
theorem volume_commit_frame (lift : Lift) (pivotActive : Bool) (w rpe : ℚ) (f : String)
    (full full2 : List Entry)
    (h : calculateAndSaveVolume lift pivotActive w rpe f full = some full2) :
    ∃ (i : ℕ) (last new : Entry),
      full.get? i = some last ∧ namesLift lift last = true ∧
      (∀ (j : ℕ) (b : Entry), i < j → full.get? j = some b → namesLift lift b = false) ∧
      full2.length = full.length ∧
      (∀ j : ℕ, j ≠ i → full2.get? j = full.get? j) ∧
      full2.get? i = some new ∧
      new =
        { last with
          volActual := some w
          volRpe := some rpe
          volFail := f
          volReps := some (calculateWaveTarget lift (getFilteredHistory lift full)
            (last.pivot || pivotActive)).reps } := by
  obtain ⟨i, last, hidx, hget, hfull2⟩ :=
    calculateAndSaveVolume_eq_some lift pivotActive w rpe f full full2 h
  obtain ⟨⟨a, ha, hpa⟩, hlater⟩ := lastIndexWhere_eq_some _ _ i hidx
  have hal : a = last := by
    rw [hget] at ha
    exact (Option.some.inj ha).symm
  subst hal
  have hlt : i < full.length := by
    rw [List.get?_eq_getElem?] at hget
    exact (List.getElem?_eq_some_iff.mp hget).1
  refine ⟨i, a, _, hget, hpa, hlater, ?_, ?_, ?_, rfl⟩
  · rw [hfull2, List.length_set]
  · intro j hj
    rw [hfull2, List.get?_eq_getElem?, List.get?_eq_getElem?,
      List.getElem?_set_ne (Ne.symm hj)]
  · rw [hfull2, List.get?_eq_getElem?, List.getElem?_set_self hlt]

/-- Witness of `volume_commit_frame`: a squat volume commit on a history of a
squat record followed by a bench record leaves the bench record in place. -/
theorem volume_commit_frame_witness :
    ∃ (i : ℕ) (last new : Entry),
      [sampleHeavy, sampleBench].get? i = some last ∧ namesLift Lift.squat last = true ∧
      (∀ (j : ℕ) (b : Entry), i < j → [sampleHeavy, sampleBench].get? j = some b →
        namesLift Lift.squat b = false) ∧
      [{ sampleHeavy with
          volActual := some 365, volRpe := some 7, volFail := "no", volReps := some 4 },
        sampleBench].length = [sampleHeavy, sampleBench].length ∧
      (∀ j : ℕ, j ≠ i →
        [{ sampleHeavy with
            volActual := some 365, volRpe := some 7, volFail := "no", volReps := some 4 },
          sampleBench].get? j = [sampleHeavy, sampleBench].get? j) ∧
      [{ sampleHeavy with
          volActual := some 365, volRpe := some 7, volFail := "no", volReps := some 4 },
        sampleBench].get? i = some new ∧
      new =
        { last with
          volActual := some 365
          volRpe := some 7
          volFail := "no"
          volReps := some (calculateWaveTarget Lift.squat
            (getFilteredHistory Lift.squat [sampleHeavy, sampleBench])
            (last.pivot || false)).reps } :=
  volume_commit_frame Lift.squat false 365 7 "no" [sampleHeavy, sampleBench]
    [{ sampleHeavy with
        volActual := some 365, volRpe := some 7, volFail := "no", volReps := some 4 },
      sampleBench]
    (by decide)

/-! ## Order independence of the fatigue gate -/

theorem prevSessionsOf_perm (cur : Session) (h1 h2 : List Entry) (hperm : h1.Perm h2)
    (hdistinct : (h1.filter fun s => decide (s.type = some cur.type)).Pairwise
      fun a b => a.date ≠ b.date) :
    prevSessionsOf cur h1 = prevSessionsOf cur h2 := by
  haveI : IsTotal Entry (fun a b : Entry => b.date ≤ a.date) :=
    ⟨fun a b => le_total b.date a.date⟩
  haveI : IsTrans Entry (fun a b : Entry => b.date ≤ a.date) :=
    ⟨fun a b c hab hbc => le_trans hbc hab⟩
  haveI : IsAntisymm Entry (fun a b : Entry => b.date < a.date ∨ a = b) :=
    ⟨fun a b hab hba => by
      rcases hab with hab | hab
      · rcases hba with hba | hba
        · exact absurd (lt_trans hab hba) (lt_irrefl _)
        · exact hba.symm
      · exact hab⟩
  have hsymm : ∀ {x y : Entry}, x.date ≠ y.date → y.date ≠ x.date := fun h => Ne.symm h
  have hfilter : (h1.filter fun s =>
      decide (s.type = some cur.type) && decide (some s.id ≠ cur.id)).Pairwise
      fun a b => a.date ≠ b.date := by
    have hsub : List.Sublist
        (h1.filter fun s => decide (s.type = some cur.type) && decide (some s.id ≠ cur.id))
        (h1.filter fun s => decide (s.type = some cur.type)) := by
      have heq : (h1.filter fun s =>
          decide (s.type = some cur.type) && decide (some s.id ≠ cur.id)) =
          (h1.filter fun s => decide (s.type = some cur.type)).filter
            fun s => decide (some s.id ≠ cur.id) := by
        rw [List.filter_filter]
        congr 1
        funext s
        exact Bool.and_comm _ _
      rw [heq]
      exact List.filter_sublist _
    exact hdistinct.sublist hsub
  have hp1 := List.perm_insertionSort (fun a b : Entry => b.date ≤ a.date)
    (h1.filter fun s => decide (s.type = some cur.type) && decide (some s.id ≠ cur.id))
  have hp2 := List.perm_insertionSort (fun a b : Entry => b.date ≤ a.date)
    (h2.filter fun s => decide (s.type = some cur.type) && decide (some s.id ≠ cur.id))
  have hp12 : (prevSessionsOf cur h1).Perm (prevSessionsOf cur h2) :=
    hp1.trans ((hperm.filter _).trans hp2.symm)
  have hd1 : (prevSessionsOf cur h1).Pairwise fun a b => a.date ≠ b.date :=
    hp1.symm.pairwise hfilter hsymm
  have hd2 : (prevSessionsOf cur h2).Pairwise fun a b => a.date ≠ b.date :=
    hp12.pairwise hd1 hsymm
  have hs1 : List.Sorted (fun a b : Entry => b.date ≤ a.date) (prevSessionsOf cur h1) :=
    List.sorted_insertionSort _ _
  have hs2 : List.Sorted (fun a b : Entry => b.date ≤ a.date) (prevSessionsOf cur h2) :=
    List.sorted_insertionSort _ _
  have strict : ∀ l : List Entry, List.Sorted (fun a b : Entry => b.date ≤ a.date) l →
      (l.Pairwise fun a b => a.date ≠ b.date) →
      List.Sorted (fun a b : Entry => b.date < a.date ∨ a = b) l := by
    intro l hs hd
    exact (List.Pairwise.and hs hd).imp fun ⟨hle, hne⟩ =>
      Or.inl (lt_of_le_of_ne hle (Ne.symm hne))
  exact List.eq_of_perm_of_sorted hp12 (strict _ hs1 hd1) (strict _ hs2 hd2)

/-- C25: for two histories that are permutations of each other and whose
records of the current type have pairwise distinct dates, `checkFatigue`
returns the same result. -/
theorem checkFatigue_order_independent (cur : Session) (h1 h2 : List Entry)
    (hperm : h1.Perm h2)
    (hdistinct : (h1.filter fun s => decide (s.type = some cur.type)).Pairwise
      fun a b => a.date ≠ b.date) :
    checkFatigue cur h1 = checkFatigue cur h2 := by
  unfold checkFatigue
  rw [prevSessionsOf_perm cur h1 h2 hperm hdistinct]

/-- Witness of `checkFatigue_order_independent`: the two orders of a history
with sessions of 500 (date 1) and 490 (date 2). -/
theorem checkFatigue_order_independent_witness :
    checkFatigue (sampleCurrent 480) [samplePerf "a" 1 500, samplePerf "b" 2 490] =
      checkFatigue (sampleCurrent 480) [samplePerf "b" 2 490, samplePerf "a" 1 500] :=
  checkFatigue_order_independent (sampleCurrent 480)
    [samplePerf "a" 1 500, samplePerf "b" 2 490] [samplePerf "b" 2 490, samplePerf "a" 1 500]
    (List.Perm.swap _ _ _) (by decide)

/-! ## The test copy of the wave logic -/

/-- With the pivot flag set the test copy and `App.calculateWaveTarget` return
the same weight and the same reps. -/
theorem test_copy_agrees_under_pivot (lift : Lift) (history : List Entry) :
    (testCalculateWaveTarget lift history true).weight =
      (calculateWaveTarget lift history true).weight ∧
    (testCalculateWaveTarget lift history true).reps =
      (calculateWaveTarget lift history true).reps := by
  simp [testCalculateWaveTarget, calculateWaveTarget]

/-- C26 (evaluation at the failing input): on the empty squat history with
pivot off (Scenario 1 of the test file) the test copy returns weight 315 where
`App.calculateWaveTarget` returns 365; after one succeeded 315 × 4 record the
test copy returns 320 × 4 where `App.calculateWaveTarget` returns 315 × 5. -/
theorem test_copy_differs :
    (testCalculateWaveTarget Lift.squat [] false).weight = 315 ∧
    (calculateWaveTarget Lift.squat [] false).weight = 365 ∧
    (testCalculateWaveTarget Lift.squat [sampleVol 315 4 "no"] false).weight = 320 ∧
    (testCalculateWaveTarget Lift.squat [sampleVol 315 4 "no"] false).reps = 4 ∧
    (calculateWaveTarget Lift.squat [sampleVol 315 4 "no"] false).weight = 315 ∧
    (calculateWaveTarget Lift.squat [sampleVol 315 4 "no"] false).reps = 5 := by
  have hfind : findLastRealVol [sampleVol 315 4 "no"] = some (sampleVol 315 4 "no") := by
    decide
  have hnil : findLastRealVol [] = none := rfl
  refine ⟨?_, ?_, ?_, ?_, ?_, ?_⟩
  · simp [testCalculateWaveTarget, hnil]
  · simp [calculateWaveTarget, hnil, defaultVol]
  · simp only [testCalculateWaveTarget, hfind]
    norm_num [sampleVol, sampleHeavy, toNumber, orDefault]
  · simp only [testCalculateWaveTarget, hfind]
    norm_num [sampleVol, sampleHeavy, toNumber, orDefault]
  · simp only [calculateWaveTarget, hfind]
    norm_num [sampleVol, sampleHeavy, toNumber, orDefault]
  · simp only [calculateWaveTarget, hfind]
    norm_num [sampleVol, sampleHeavy, toNumber, orDefault]

/-! ## Size of the corrections -/

theorem roundTo5_le (y : ℚ) : roundTo5 y ≤ y + 5 / 2 := by
  unfold roundTo5 mathRound
  have h := Int.floor_le (y / 5 + 1 / 2)
  linarith

/-- C29: when the last record has a top single above 31.25 and the backdown
failure rule or the overshoot rule applies, the non-pivot target is strictly
below the top single; whenever the non-pivot target exceeds 50/3 the pivot
target is strictly below it, as is `round5 (base × 0.85)` for every base above
50/3; a top single of 25 with a backdown failure keeps the target 25. -/
theorem corrections_lower_target (pre : List Entry) (last : Entry) (hs : ℚ)
    (hsingle : last.heavySingle = some hs) (hgt : 31.25 < hs)
    (hrule : last.backdownFail = "yes" ∨ last.overshoot = "yes" ∨
      ∃ rpe : ℚ, last.heavyRpe = some rpe ∧ 9.5 ≤ rpe) :
    (∃ s : Suggestion, generateHeavySuggestion (pre ++ [last]) false = some s ∧
      s.target < hs) ∧
    (∀ s p : Suggestion, generateHeavySuggestion (pre ++ [last]) false = some s →
      generateHeavySuggestion (pre ++ [last]) true = some p → 50 / 3 < s.target →
      p.target < s.target) ∧
    (∀ base : ℚ, 50 / 3 < base → roundTo5 (base * 0.85) < base) ∧
    roundTo5 (25 * 0.90) = 25 := by
  have hne : hs ≠ 0 := by
    intro h0
    rw [h0] at hgt
    norm_num at hgt
  have hpivot : ∀ base : ℚ, 50 / 3 < base → roundTo5 (base * 0.85) < base := by
    intro base hb
    have h := roundTo5_le (base * 0.85)
    norm_num at h ⊢
    linarith
  refine ⟨?_, ?_, hpivot, by norm_num [roundTo5, mathRound, Int.floor_eq_iff]⟩
  · by_cases hback : last.backdownFail = "yes"
    · refine ⟨{ target := roundTo5 (hs * 0.90),
                text := SuggestionText.plain "Backdown Fail." (roundTo5 (hs * 0.90)) }, ?_, ?_⟩
      · simp [generateHeavySuggestion, baseRule, hsingle, truthy, toNumber, hne, hback]
      · have h := roundTo5_le (hs * 0.90)
        norm_num at h hgt ⊢
        linarith
    · have hover := hrule.resolve_left hback
      refine ⟨{ target := roundTo5 (hs * 0.92),
                text := SuggestionText.plain "Overshoot Correction." (roundTo5 (hs * 0.92)) },
        ?_, ?_⟩
      · rcases hover with hover | ⟨rpe, hrpe, hge⟩
        · simp [generateHeavySuggestion, baseRule, hsingle, truthy, toNumber, hne, hback,
            hover]
        · have hrne : rpe ≠ 0 := by
            intro h0
            rw [h0] at hge
            norm_num at hge
          simp [generateHeavySuggestion, baseRule, hsingle, truthy, toNumber, hne, hback,
            hrpe, hrne, hge]
      · have h := roundTo5_le (hs * 0.92)
        norm_num at h hgt ⊢
        linarith
  · intro s p hs1 hp1 hbase
    have htr : truthy last.heavySingle = true := by simp [hsingle, truthy, hne]
    simp only [generateHeavySuggestion, List.getLast?_concat, htr, if_true,
      Bool.false_eq_true, if_false, Option.some.injEq] at hs1 hp1
    subst hs1
    subst hp1
    exact hpivot _ hbase

/-- Witness of `corrections_lower_target`: a failed backdown on 500. -/
theorem corrections_lower_target_witness :
    ∃ s : Suggestion, generateHeavySuggestion ([] ++ [sampleBackdownFail]) false = some s ∧
      s.target < 500 :=
  (corrections_lower_target [] sampleBackdownFail 500 rfl (by norm_num) (Or.inl rfl)).1

/-! ## Plate loading -/

theorem drainPlate_spec (p : ℚ) (hp : 0 < p) (n : ℕ) :
    ∀ (target : ℚ) (result : List ℚ), (⌊target / p⌋).toNat = n →
      ∃ m : ℕ, (drainPlate p hp target result).2 = result ++ List.replicate m p ∧
        (drainPlate p hp target result).1 = target - m * p ∧
        (drainPlate p hp target result).1 < p ∧
        (0 ≤ target → 0 ≤ (drainPlate p hp target result).1) := by
  induction n using Nat.strong_induction_on with
  | _ n ih =>
    intro target result hn
    rw [drainPlate]
    by_cases h : target ≥ p
    · rw [dif_pos h]
      have h1 : (target - p) / p = target / p - 1 := by
        rw [sub_div, div_self (ne_of_gt hp)]
      have h2 : (1 : ℤ) ≤ ⌊target / p⌋ := by
        rw [Int.le_floor, Int.cast_one, le_div_iff₀ hp, one_mul]
        exact h
      have hlt : (⌊(target - p) / p⌋).toNat < n := by
        rw [h1, Int.floor_sub_one]
        omega
      obtain ⟨m, hm1, hm2, hm3, hm4⟩ := ih _ hlt (target - p) (result ++ [p]) rfl
      refine ⟨m + 1, ?_, ?_, hm3, ?_⟩
      · rw [hm1, List.append_assoc, List.replicate_succ]
        rfl
      · rw [hm2]
        push_cast
        ring
      · intro h0
        exact hm4 (by linarith)
    · rw [dif_neg h]
      exact ⟨0, by simp, by simp, lt_of_not_ge h, fun h0 => h0⟩


theorem drainPlate_stage (p : ℚ) (hp : 0 < p) (target : ℚ) (result : List ℚ) :
    ∃ m : ℕ, drainPlate p hp target result = (target - m * p, result ++ List.replicate m p) ∧
      target - m * p < p ∧ (0 ≤ target → 0 ≤ target - m * p) := by
  obtain ⟨m, h1, h2, h3, h4⟩ := drainPlate_spec p hp _ target result rfl
  refine ⟨m, ?_, ?_, ?_⟩
  · exact Prod.ext h2 h1
  · rw [← h2]; exact h3
  · intro h0; rw [← h2]; exact h4 h0

theorem loadPlates_spec (k : ℕ) :
    ∃ n1 n2 n3 n4 n5 n6 : ℕ,
      (loadPlates (5 / 2 * (k : ℚ))).2 =
        List.replicate n1 45 ++ List.replicate n2 35 ++ List.replicate n3 25 ++
          List.replicate n4 10 ++ List.replicate n5 5 ++ List.replicate n6 2.5 ∧
      (45 : ℚ) * n1 + 35 * n2 + 25 * n3 + 10 * n4 + 5 * n5 + 2.5 * n6 = 5 / 2 * (k : ℚ) := by
  have ht0 : (0 : ℚ) ≤ 5 / 2 * (k : ℚ) := by positivity
  obtain ⟨n1, e1, _, p1⟩ := drainPlate_stage 45 (by norm_num) (5 / 2 * (k : ℚ)) []
  rw [List.nil_append] at e1
  obtain ⟨n2, e2, _, p2⟩ := drainPlate_stage 35 (by norm_num) (5 / 2 * (k : ℚ) - n1 * 45)
    (List.replicate n1 45)
  obtain ⟨n3, e3, _, p3⟩ := drainPlate_stage 25 (by norm_num)
    (5 / 2 * (k : ℚ) - n1 * 45 - n2 * 35) (List.replicate n1 45 ++ List.replicate n2 35)
  obtain ⟨n4, e4, _, p4⟩ := drainPlate_stage 10 (by norm_num)
    (5 / 2 * (k : ℚ) - n1 * 45 - n2 * 35 - n3 * 25)
    (List.replicate n1 45 ++ List.replicate n2 35 ++ List.replicate n3 25)
  obtain ⟨n5, e5, _, p5⟩ := drainPlate_stage 5 (by norm_num)
    (5 / 2 * (k : ℚ) - n1 * 45 - n2 * 35 - n3 * 25 - n4 * 10)
    (List.replicate n1 45 ++ List.replicate n2 35 ++ List.replicate n3 25 ++
      List.replicate n4 10)
  obtain ⟨n6, e6, lt6, p6⟩ := drainPlate_stage 2.5 (by norm_num)
    (5 / 2 * (k : ℚ) - n1 * 45 - n2 * 35 - n3 * 25 - n4 * 10 - n5 * 5)
    (List.replicate n1 45 ++ List.replicate n2 35 ++ List.replicate n3 25 ++
      List.replicate n4 10 ++ List.replicate n5 5)
  have hnonneg := p6 (p5 (p4 (p3 (p2 (p1 ht0)))))
  refine ⟨n1, n2, n3, n4, n5, n6, ?_, ?_⟩
  · simp only [loadPlates, e1, e2, e3, e4, e5, e6]
  · have hz : ((k : ℤ) - 18 * n1 - 14 * n2 - 10 * n3 - 4 * n4 - 2 * n5 - n6 : ℤ) = 0 := by
      have hcast : (5 / 2 : ℚ) * (((k : ℤ) - 18 * n1 - 14 * n2 - 10 * n3 - 4 * n4 - 2 * n5 - n6 : ℤ) : ℚ) =
          5 / 2 * (k : ℚ) - n1 * 45 - n2 * 35 - n3 * 25 - n4 * 10 - n5 * 5 - n6 * 2.5 := by
        push_cast
        ring
      have hlo : (0 : ℚ) ≤ (((k : ℤ) - 18 * n1 - 14 * n2 - 10 * n3 - 4 * n4 - 2 * n5 - n6 : ℤ) : ℚ) := by
        have := hnonneg
        rw [← hcast] at this
        linarith
      have hhi : (((k : ℤ) - 18 * n1 - 14 * n2 - 10 * n3 - 4 * n4 - 2 * n5 - n6 : ℤ) : ℚ) < 1 := by
        have := lt6
        rw [← hcast] at this
        norm_num at this
        linarith
      have hlo2 : (0 : ℤ) ≤ (k : ℤ) - 18 * n1 - 14 * n2 - 10 * n3 - 4 * n4 - 2 * n5 - n6 := by
        exact_mod_cast hlo
      have hhi2 : (k : ℤ) - 18 * n1 - 14 * n2 - 10 * n3 - 4 * n4 - 2 * n5 - n6 < 1 := by
        exact_mod_cast hhi
      omega
    have hq : ((k : ℚ) - 18 * n1 - 14 * n2 - 10 * n3 - 4 * n4 - 2 * n5 - n6 : ℚ) = 0 := by
      exact_mod_cast hz
    norm_num
    linarith


theorem pos_sum_eq_zero : ∀ l : List ℚ, (∀ x ∈ l, 0 < x) → l.sum = 0 → l = []
  | [], _, _ => rfl
  | a :: l, hpos, hsum => by
    have ha : 0 < a := hpos a (List.mem_cons_self _ _)
    have hl : 0 ≤ l.sum := List.sum_nonneg fun x hx => le_of_lt (hpos x (List.mem_cons_of_mem _ hx))
    rw [List.sum_cons] at hsum
    linarith

theorem sorted_append_replicate (l : List ℚ) (q p : ℚ) (n : ℕ) (hpq : p ≤ q)
    (hs : List.Sorted (fun a b : ℚ => a ≥ b) l) (hb : ∀ x ∈ l, q ≤ x) :
    List.Sorted (fun a b : ℚ => a ≥ b) (l ++ List.replicate n p) ∧
    ∀ x ∈ l ++ List.replicate n p, p ≤ x := by
  constructor
  · unfold List.Sorted
    rw [List.pairwise_append]
    refine ⟨hs, ?_, ?_⟩
    · rw [List.pairwise_replicate]
      exact Or.inr (le_refl p)
    · intro x hx y hy
      rw [List.mem_replicate] at hy
      rw [hy.2]
      exact le_trans hpq (hb x hx)
  · intro x hx
    rcases List.mem_append.mp hx with h | h
    · exact le_trans hpq (hb x h)
    · rw [List.mem_replicate] at h
      rw [h.2]

/-- C30: `drainPlate` is a total function, so the greedy loop ends.  For a
weight `w ≥ 45` with `w - 45` a multiple of 5 the plates listed are drawn from
45, 35, 25, 10, 5, 2.5, are in non-increasing order and sum to `(w - 45) / 2`,
so that `45 + 2 × sum = w`; the result is "Bar" exactly when `w = 45`, and it is
"Bar" for every weight below 45. -/
theorem plate_loading_exact (w : ℚ) (hw : 45 ≤ w) (hmult : IsMultipleOf5 (w - 45)) :
    (∃ result : List ℚ, (loadPlates ((w - 45) / 2)).2 = result ∧
      (∀ p ∈ result, p ∈ plateSizes) ∧
      List.Sorted (fun a b : ℚ => a ≥ b) result ∧
      result.sum = (w - 45) / 2 ∧
      45 + 2 * result.sum = w ∧
      getPlateLoading w = (if w = 45 then Loading.bar else Loading.plates result)) ∧
    (getPlateLoading w = Loading.bar ↔ w = 45) ∧
    ∀ v : ℚ, v < 45 → getPlateLoading v = Loading.bar := by
  obtain ⟨z, hz⟩ := hmult
  have hz0 : (0 : ℤ) ≤ z := by
    have h : (0 : ℚ) ≤ 5 * (z : ℚ) := by rw [← hz]; linarith
    have h2 : (0 : ℚ) ≤ (z : ℚ) := by linarith
    exact_mod_cast h2
  obtain ⟨k, hk⟩ := Int.eq_ofNat_of_zero_le hz0
  have htarget : (w - 45) / 2 = 5 / 2 * (k : ℚ) := by
    rw [hz, hk]
    push_cast
    ring
  obtain ⟨n1, n2, n3, n4, n5, n6, hlist, hsum⟩ := loadPlates_spec k
  rw [← htarget] at hlist hsum
  have hmem : ∀ p ∈ (loadPlates ((w - 45) / 2)).2, p ∈ plateSizes := by
    intro p hp
    rw [hlist] at hp
    simp only [List.mem_append, List.mem_replicate] at hp
    rcases hp with ((((h | h) | h) | h) | h) | h <;> rw [h.2] <;> simp [plateSizes]
  have hsorted : List.Sorted (fun a b : ℚ => a ≥ b) (loadPlates ((w - 45) / 2)).2 := by
    rw [hlist]
    have s1 := sorted_append_replicate [] 45 45 n1 (le_refl _) List.sorted_nil (by simp)
    rw [List.nil_append] at s1
    have s2 := sorted_append_replicate _ 45 35 n2 (by norm_num) s1.1 s1.2
    have s3 := sorted_append_replicate _ 35 25 n3 (by norm_num) s2.1 s2.2
    have s4 := sorted_append_replicate _ 25 10 n4 (by norm_num) s3.1 s3.2
    have s5 := sorted_append_replicate _ 10 5 n5 (by norm_num) s4.1 s4.2
    exact (sorted_append_replicate _ 5 2.5 n6 (by norm_num) s5.1 s5.2).1
  have hsumeq : (loadPlates ((w - 45) / 2)).2.sum = (w - 45) / 2 := by
    rw [hlist]
    simp only [List.sum_append, List.sum_replicate, nsmul_eq_mul]
    linarith
  have hposs : ∀ x ∈ (loadPlates ((w - 45) / 2)).2, (0 : ℚ) < x := by
    intro x hx
    have := hmem x hx
    simp only [plateSizes, List.mem_cons, List.mem_singleton, List.not_mem_nil, or_false] at this
    rcases this with h | h | h | h | h | h <;> rw [h] <;> norm_num
  have hw0 : ¬ (w = 0 ∨ w < 45) := by
    rintro (h | h) <;> linarith
  have hget : getPlateLoading w =
      (if w = 45 then Loading.bar else Loading.plates (loadPlates ((w - 45) / 2)).2) := by
    unfold getPlateLoading
    rw [if_neg hw0]
    by_cases h45 : w = 45
    · have hnil : (loadPlates ((w - 45) / 2)).2 = [] :=
        pos_sum_eq_zero _ hposs (by rw [hsumeq, h45]; norm_num)
      rw [if_pos h45]
      simp [hnil]
    · have hne : (loadPlates ((w - 45) / 2)).2.length ≠ 0 := by
        intro h0
        rw [List.length_eq_zero] at h0
        rw [h0] at hsumeq
        simp only [List.sum_nil] at hsumeq
        apply h45
        linarith
      rw [if_neg h45]
      simp [hne]
  refine ⟨⟨_, rfl, hmem, hsorted, hsumeq, by rw [hsumeq]; ring, hget⟩, ?_, ?_⟩
  · rw [hget]
    by_cases h45 : w = 45 <;> simp [h45]
  · intro v hv
    simp [getPlateLoading, hv]

/-- Witness of `plate_loading_exact`: a weight of 315. -/
theorem plate_loading_exact_witness :
    ∃ result : List ℚ, (loadPlates ((315 - 45) / 2)).2 = result ∧
      (∀ p ∈ result, p ∈ plateSizes) ∧
      List.Sorted (fun a b : ℚ => a ≥ b) result ∧
      result.sum = (315 - 45) / 2 ∧
      45 + 2 * result.sum = 315 ∧
      getPlateLoading 315 = (if (315 : ℚ) = 45 then Loading.bar else Loading.plates result) :=
  (plate_loading_exact 315 (by norm_num) ⟨54, by norm_num⟩).1

end Vena
